import Mathlib

/-!
Verification development for the VitalSync monitoring engine (src/app.js).

The JavaScript source is shallowly embedded below: JS numbers become real
numbers, `Math.round` becomes the floor-based `jsRound`, mutation of the
global `state` object becomes explicit state passing, and every call to
`Math.random` / the Box-Muller `gaussRandom` is replaced by an oracle
argument supplied from outside (one pair of Gaussian draws per signal per
tick, one uniform draw, plus the `Date`-derived id and time string).
Rendering code that touches only the DOM/canvas is omitted, except for
`renderRisks`, which mutates `risk.value` and therefore belongs to the
engine state.
-/

namespace VitalSync

/-- The seven simulated signals (CONFIG.signals). -/
inductive Sig
  | hr
  | spo2
  | bp_sys
  | bp_dia
  | temp
  | rr
  | hrv
deriving DecidableEq, Repr

/-- Per-vital mutable record from `state.vitals`. -/
structure Vital where
  value : ℝ
  baseline : ℝ
  min : ℝ
  max : ℝ
  variance : ℝ
  unit : String
  history : List ℝ

/-- One anomaly event, as built by `addAnomaly`. -/
structure Anomaly where
  id : ℤ
  time : String
  title : String
  description : String
  tags : List String
  severity : String
  status : String

/-- Aggregate statistics from `state.anomalyStats`. -/
structure AnomalyStats where
  total : ℕ
  critical : ℕ
  resolved : ℕ

/-- One risk category record from `state.risks`. -/
structure Risk where
  value : ℝ
  target : ℝ
  factors : List String

/-- The four risk categories. -/
structure Risks where
  cardio : Risk
  respiratory : Risk
  metabolic : Risk
  apnea : Risk

/-- The full mutable engine state (the global `state` object). -/
structure SimState where
  vitals : Sig → Vital
  correlations : Sig → Sig → ℝ
  risks : Risks
  anomalies : List Anomaly
  anomalyStats : AnomalyStats
  trendData : Sig → List ℝ
  tick : ℤ
  anomalyMode : Bool
  anomalyModeStart : ℤ
  nextAnomalyTick : ℤ

/-- CONFIG.chartPoints. -/
def CONFIG.chartPoints : ℕ := 40

/-- CONFIG.trendPoints. -/
def CONFIG.trendPoints : ℕ := 60

/-- CONFIG.signals, in source order (`hr` is processed first each tick). -/
def CONFIG.signals : List Sig :=
  [Sig.hr, Sig.spo2, Sig.bp_sys, Sig.bp_dia, Sig.temp, Sig.rr, Sig.hrv]

/-- The six signals whose values are pushed into `state.trendData`. -/
def trendSignals : List Sig :=
  [Sig.hr, Sig.spo2, Sig.bp_sys, Sig.bp_dia, Sig.rr, Sig.hrv]

/-- `clamp(v, lo, hi) = Math.max(lo, Math.min(hi, v))`. -/
def clamp (v lo hi : ℝ) : ℝ := max lo (min hi v)

/-- `lerp(a, b, t) = a + (b - a) * t`. -/
def lerp (a b t : ℝ) : ℝ := a + (b - a) * t

/-- `Math.round`: rounds to the nearest integer, halves toward positive
infinity, i.e. `⌊x + 1/2⌋`. -/
noncomputable def jsRound (x : ℝ) : ℝ := (⌊x + 1 / 2⌋ : ℤ)

/-- `pearsonCorrelation(x, y)` from src/app.js lines 60-75.  The `for` loop
over `i = 0 .. n-1` is rendered as sums over `Finset.range n`; `slice(-n)`
becomes `drop (length - n)`. -/
noncomputable def pearsonCorrelation (x y : List ℝ) : ℝ :=
  let n := Nat.min x.length y.length
  if n < 5 then 0 else
  let xs := x.drop (x.length - n)
  let ys := y.drop (y.length - n)
  let mx := (∑ i ∈ Finset.range n, xs.getD i 0) / n
  let my := (∑ i ∈ Finset.range n, ys.getD i 0) / n
  let num := ∑ i ∈ Finset.range n, (xs.getD i 0 - mx) * (ys.getD i 0 - my)
  let dx := ∑ i ∈ Finset.range n, (xs.getD i 0 - mx) ^ 2
  let dy := ∑ i ∈ Finset.range n, (ys.getD i 0 - my) ^ 2
  let denom := Real.sqrt (dx * dy)
  if denom = 0 then 0 else num / denom

/-- `addAnomaly(status, title, description, tags, severity)`: unshift the
new event, pop the last (oldest) entry when the length exceeds 15, then
recompute the aggregate statistics.  `Date.now()` and `formatTime(now)`
are the oracle arguments `idNow` and `timeStr`. -/
def addAnomaly (s : SimState) (idNow : ℤ) (timeStr : String)
    (status title description : String) (tags : List String)
    (severity : String) : SimState :=
  let ev : Anomaly :=
    { id := idNow, time := timeStr, title := title, description := description,
      tags := tags, severity := severity, status := status }
  let anoms0 := ev :: s.anomalies
  let anoms := if anoms0.length > 15 then anoms0.dropLast else anoms0
  { s with
    anomalies := anoms,
    anomalyStats :=
      { total := anoms.length,
        critical := (anoms.filter (fun a =>
          a.severity == ("high") || a.status == ("active"))).length,
        resolved := (anoms.filter (fun a =>
          a.status == ("auto-resolved"))).length } }

/-- The per-signal anomaly drift from the `switch` in `generateVital`
(src/app.js lines 97-104); `bp_dia` has no case and drifts by 0.
`g` is the fresh `gaussRandom()` draw of the matching branch. -/
def anomalyDrift (sig : Sig) (severity g : ℝ) : ℝ :=
  match sig with
  | Sig.hr => severity * 8 + g * 2
  | Sig.spo2 => -(severity * 2.5 + |g| * 0.5)
  | Sig.rr => severity * 4 + g
  | Sig.hrv => -(severity * 10 + |g| * 2)
  | Sig.bp_sys => severity * 6 + g * 2
  | Sig.temp => severity * 0.6 + g * 0.1
  | Sig.bp_dia => 0

/-- `generateVital(signal)` (src/app.js lines 78-124).  `g1` is the base
`gaussRandom()` draw, `g2` the draw used inside the anomaly `switch`, and
`r` the `Math.random()` draw used to reschedule `nextAnomalyTick` when the
episode auto-resolves. -/
noncomputable def generateVital (s : SimState) (sig : Sig)
    (g1 g2 r : ℝ) (idNow : ℤ) (timeStr : String) : SimState :=
  let v := s.vitals sig
  let tick := s.tick
  let circadian := Real.sin ((tick : ℝ) * 0.02) * v.variance * 0.5
  let noise := g1 * v.variance
  let reversion := (v.baseline - v.value) * 0.08
  let newVal0 := v.value + reversion + circadian * 0.1 + noise
  let elapsed : ℤ := tick - s.anomalyModeStart
  let severity : ℝ := min ((elapsed : ℝ) / 15) 1
  let newVal1 :=
    if s.anomalyMode then newVal0 + anomalyDrift sig severity g2 else newVal0
  let s1 :=
    if s.anomalyMode ∧ 20 < elapsed then
      let s' := addAnomaly { s with anomalyMode := false } idNow timeStr
        ("auto-resolved") ("Multi-Signal Pattern Normalized")
        ("Correlation patterns have returned to baseline. The transient divergence resolved without intervention.")
        ["HR", "SpO2", "HRV"] ("low")
      { s' with nextAnomalyTick := tick + 25 + ⌊r * 20⌋ }
    else s
  let newVal2 := clamp newVal1 v.min v.max
  let newVal3 := if sig = Sig.spo2 then jsRound (newVal2 * 10) / 10 else newVal2
  let newVal4 :=
    if sig = Sig.temp then jsRound (newVal3 * 10) / 10
    else if sig ≠ Sig.spo2 then jsRound (newVal3 * 10) / 10
    else newVal3
  let history0 := v.history ++ [newVal4]
  let history1 :=
    if history0.length > CONFIG.chartPoints then history0.tail else history0
  let v' := { v with value := newVal4, history := history1 }
  { s1 with vitals := Function.update s1.vitals sig v' }

/-- The ordered signal subset of the correlation matrix
(`matrixSignals` in src/app.js). -/
def matrixSignals : List Sig :=
  [Sig.hr, Sig.spo2, Sig.bp_sys, Sig.temp, Sig.rr, Sig.hrv]

/-- `updateCorrelations()` (src/app.js lines 156-170): every ordered pair of
matrix signals gets key `1` on the diagonal and the Pearson coefficient of
the two rolling histories off the diagonal; keys outside the matrix subset
are left untouched. -/
noncomputable def updateCorrelations (vitals : Sig → Vital)
    (old : Sig → Sig → ℝ) : Sig → Sig → ℝ :=
  fun i j =>
    if i ∈ matrixSignals ∧ j ∈ matrixSignals then
      if i = j then 1
      else pearsonCorrelation (vitals i).history (vitals j).history
    else old i j

/-- `updateRisks()` (src/app.js lines 173-221). -/
noncomputable def updateRisks (s : SimState) : SimState :=
  let v := s.vitals
  let hrDev := |(v Sig.hr).value - (v Sig.hr).baseline| / (v Sig.hr).baseline
  let bpDev :=
    |(v Sig.bp_sys).value - (v Sig.bp_sys).baseline| / (v Sig.bp_sys).baseline
  let hrvDev :=
    |(v Sig.hrv).value - (v Sig.hrv).baseline| / (v Sig.hrv).baseline
  let hrBpCorr := |s.correlations Sig.hr Sig.bp_sys|
  let cardioRisk :=
    clamp ((hrDev * 30 + bpDev * 25 + hrvDev * 25 + hrBpCorr * 20) * 100) 3 95
  let spo2Dev :=
    |(v Sig.spo2).value - (v Sig.spo2).baseline| / (v Sig.spo2).baseline
  let rrDev := |(v Sig.rr).value - (v Sig.rr).baseline| / (v Sig.rr).baseline
  let spo2RrCorr := |s.correlations Sig.spo2 Sig.rr|
  let respRisk :=
    clamp ((spo2Dev * 35 + rrDev * 30 + hrDev * 15 + spo2RrCorr * 20) * 100) 2 95
  let tempDev :=
    |(v Sig.temp).value - (v Sig.temp).baseline| / (v Sig.temp).baseline
  let tempHrCorr := |s.correlations Sig.temp Sig.hr|
  let metaRisk :=
    clamp ((tempDev * 30 + hrDev * 25 + bpDev * 20 + tempHrCorr * 25) * 100) 3 95
  let spo2HrvCorr := |s.correlations Sig.spo2 Sig.hrv|
  let apneaRisk :=
    clamp ((spo2Dev * 35 + rrDev * 25 + hrvDev * 20 + spo2HrvCorr * 20) * 100) 1 95
  { s with risks :=
    { cardio :=
      { s.risks.cardio with
        target := jsRound cardioRisk,
        factors :=
          [("HR-BP Sync: ") ++ (if hrBpCorr > 0.5 then ("Elevated") else ("Normal")),
           ("HRV Stability: ") ++
             (if hrvDev < 0.15 then ("Good")
              else if hrvDev < 0.3 then ("Fair") else ("Poor"))] },
      respiratory :=
      { s.risks.respiratory with
        target := jsRound respRisk,
        factors :=
          [("SpO2-RR Sync: ") ++ (if spo2RrCorr > 0.5 then ("Diverging") else ("Normal")),
           ("Breathing Pattern: ") ++ (if rrDev < 0.15 then ("Regular") else ("Irregular"))] },
      metabolic :=
      { s.risks.metabolic with
        target := jsRound metaRisk,
        factors :=
          [("Temp-HR Pattern: ") ++ (if tempHrCorr > 0.5 then ("Coupling") else ("Normal")),
           ("Circadian Rhythm: ") ++ (if tempDev < 0.005 then ("Aligned") else ("Shifted"))] },
      apnea :=
      { s.risks.apnea with
        target := jsRound apneaRisk,
        factors :=
          [("Night SpO2 Dips: ") ++ (if spo2Dev > 0.02 then ("Detected") else ("None")),
           ("RR Irregularity: ") ++ (if rrDev < 0.1 then ("Low") else ("Moderate"))] } } }

/-- The state-mutating part of `renderRisks()` (src/app.js line 460):
`risk.value = lerp(risk.value, risk.target, 0.1)` for each category.
All other statements of `renderRisks` only touch the DOM. -/
def renderRisks (s : SimState) : SimState :=
  { s with risks :=
    { cardio := { s.risks.cardio with
        value := lerp s.risks.cardio.value s.risks.cardio.target 0.1 },
      respiratory := { s.risks.respiratory with
        value := lerp s.risks.respiratory.value s.risks.respiratory.target 0.1 },
      metabolic := { s.risks.metabolic with
        value := lerp s.risks.metabolic.value s.risks.metabolic.target 0.1 },
      apnea := { s.risks.apnea with
        value := lerp s.risks.apnea.value s.risks.apnea.target 0.1 } } }

/-- The random draws consumed by one `updateAllVitals()` call: one pair of
Gaussian draws per signal, one uniform draw, and the `Date`-derived event
id and time string. -/
structure TickOracle where
  g1 : Sig → ℝ
  g2 : Sig → ℝ
  r : ℝ
  idNow : ℤ
  timeStr : String

/-- One `generateVital` call wired to its slice of the tick oracle. -/
noncomputable def genStep (o : TickOracle) (st : SimState) (sig : Sig) : SimState :=
  generateVital st sig (o.g1 sig) (o.g2 sig) o.r o.idNow o.timeStr

/-- The trend-data bookkeeping of `updateAllVitals` (src/app.js
lines 141-144): push the current value, shift once beyond 60 entries. -/
def trendStep (st : SimState) (sig : Sig) : SimState :=
  let td0 := st.trendData sig ++ [(st.vitals sig).value]
  let td := if td0.length > CONFIG.trendPoints then td0.tail else td0
  { st with trendData := Function.update st.trendData sig td }

/-- `updateAllVitals()` (src/app.js lines 126-153): increment the tick,
possibly enter anomaly mode, advance every signal in CONFIG.signals order,
record trend data, rebuild correlations, recompute risks, and apply the
risk smoothing performed inside `renderRisks`. -/
noncomputable def updateAllVitals (s : SimState) (o : TickOracle) : SimState :=
  let s0 := { s with tick := s.tick + 1 }
  let s1 :=
    if s0.anomalyMode = false ∧ s0.nextAnomalyTick ≤ s0.tick then
      addAnomaly { s0 with anomalyMode := true, anomalyModeStart := s0.tick }
        o.idNow o.timeStr ("active")
        ("Multi-Signal Correlation Divergence Detected")
        ("HR-SpO2 inverse correlation strengthening while HRV is declining. This pattern may indicate early-stage autonomic stress response. Monitoring closely.")
        [("HR↔SpO2"), ("HRV Decline"), ("Correlation Shift")] ("medium")
    else s0
  let s2 := CONFIG.signals.foldl (genStep o) s1
  let s3 := trendSignals.foldl trendStep s2
  let s4 := { s3 with correlations := updateCorrelations s3.vitals s3.correlations }
  renderRisks (updateRisks s4)

/-- Run the engine for a list of ticks. -/
noncomputable def run (s : SimState) (os : List TickOracle) : SimState :=
  os.foldl updateAllVitals s

/-- The initial `state` literal (src/app.js lines 22-46). -/
def state0 : SimState :=
  { vitals := fun sig =>
      match sig with
      | Sig.hr =>
        { value := 72, baseline := 72, min := 55, max := 105, variance := 3,
          unit := "BPM", history := [] }
      | Sig.spo2 =>
        { value := 98, baseline := 98, min := 92, max := 100, variance := 0.5,
          unit := "%", history := [] }
      | Sig.bp_sys =>
        { value := 120, baseline := 120, min := 95, max := 150, variance := 4,
          unit := "mmHg", history := [] }
      | Sig.bp_dia =>
        { value := 80, baseline := 80, min := 60, max := 100, variance := 3,
          unit := "mmHg", history := [] }
      | Sig.temp =>
        { value := 98.6, baseline := 98.6, min := 96.5, max := 101,
          variance := 0.2, unit := "°F", history := [] }
      | Sig.rr =>
        { value := 16, baseline := 16, min := 10, max := 25, variance := 1.5,
          unit := "br/min", history := [] }
      | Sig.hrv =>
        { value := 42, baseline := 42, min := 15, max := 80, variance := 4,
          unit := "ms", history := [] },
    correlations := fun _ _ => 0,
    risks :=
      { cardio := { value := 12, target := 12, factors := [] },
        respiratory := { value := 8, target := 8, factors := [] },
        metabolic := { value := 15, target := 15, factors := [] },
        apnea := { value := 6, target := 6, factors := [] } },
    anomalies := [],
    anomalyStats := { total := 0, critical := 0, resolved := 0 },
    trendData := fun _ => [],
    tick := 0,
    anomalyMode := false,
    anomalyModeStart := 0,
    nextAnomalyTick := 30 }

/-- `init()` (src/app.js lines 831-874), up to the DOM-only calls: pre-fill
15 history samples and 20 trend samples per signal from the noise model
around baseline, run the initial correlation/risk computation (including
the `renderRisks` smoothing), and append the initial informational event.
`hd` and `td` supply the `gaussRandom()` draws of the two pre-fill loops. -/
noncomputable def init (hd td : Sig → ℕ → ℝ) (idNow : ℤ) (timeStr : String) :
    SimState :=
  let s1 := { state0 with vitals := fun sig =>
      let v := state0.vitals sig
      { v with history := (List.range 15).map (fun i =>
          let noise := hd sig i * v.variance * 0.5
          let val := clamp (v.baseline + noise) v.min v.max
          if sig = Sig.temp ∨ sig = Sig.spo2 then jsRound (val * 10) / 10
          else jsRound (val * 10) / 10) } }
  let s2 := { s1 with trendData := fun sig =>
      if sig ∈ trendSignals then
        (List.range 20).map (fun i =>
          let v := s1.vitals sig
          clamp (v.baseline + td sig i * v.variance * 0.5) v.min v.max)
      else [] }
  let s3 := { s2 with correlations := updateCorrelations s2.vitals s2.correlations }
  let s4 := renderRisks (updateRisks s3)
  addAnomaly s4 idNow timeStr ("info")
    ("System Initialized — Correlation Monitoring Active")
    ("Multi-signal correlation engine is online. Monitoring 6 physiological signals with real-time cross-correlation analysis. Early-stage risk prediction active.")
    [("System"), ("All Signals"), ("Baseline Set")] ("low")

/-! ### Derived views of `generateVital` used throughout the proofs -/

/-- The raw (pre-clamp) candidate value computed by `generateVital`:
mean reversion, circadian term, Gaussian noise, plus the anomaly drift
when anomaly mode is on. -/
noncomputable def gvRaw (s : SimState) (sig : Sig) (g1 g2 : ℝ) : ℝ :=
  let v := s.vitals sig
  let circadian := Real.sin ((s.tick : ℝ) * 0.02) * v.variance * 0.5
  let noise := g1 * v.variance
  let reversion := (v.baseline - v.value) * 0.08
  let newVal0 := v.value + reversion + circadian * 0.1 + noise
  let severity : ℝ := min (((s.tick - s.anomalyModeStart : ℤ) : ℝ) / 15) 1
  if s.anomalyMode then newVal0 + anomalyDrift sig severity g2 else newVal0

/-- The value stored by `generateVital`: the raw value clamped to
`[min, max]` and passed through the (redundantly branched) rounding. -/
noncomputable def gvValue (s : SimState) (sig : Sig) (g1 g2 : ℝ) : ℝ :=
  let v := s.vitals sig
  let newVal2 := clamp (gvRaw s sig g1 g2) v.min v.max
  let newVal3 := if sig = Sig.spo2 then jsRound (newVal2 * 10) / 10 else newVal2
  if sig = Sig.temp then jsRound (newVal3 * 10) / 10
  else if sig ≠ Sig.spo2 then jsRound (newVal3 * 10) / 10
  else newVal3

/-- The history stored by `generateVital`: push, then shift once the chart
capacity of 40 is exceeded. -/
noncomputable def gvHistory (s : SimState) (sig : Sig) (g1 g2 : ℝ) : List ℝ :=
  let h0 := (s.vitals sig).history ++ [gvValue s sig g1 g2]
  if h0.length > CONFIG.chartPoints then h0.tail else h0

lemma addAnomaly_vitals (s : SimState) (idNow : ℤ) (ts st ti de : String)
    (tg : List String) (sv : String) :
    (addAnomaly s idNow ts st ti de tg sv).vitals = s.vitals := rfl

lemma addAnomaly_tick (s : SimState) (idNow : ℤ) (ts st ti de : String)
    (tg : List String) (sv : String) :
    (addAnomaly s idNow ts st ti de tg sv).tick = s.tick := rfl

lemma addAnomaly_anomalyMode (s : SimState) (idNow : ℤ) (ts st ti de : String)
    (tg : List String) (sv : String) :
    (addAnomaly s idNow ts st ti de tg sv).anomalyMode = s.anomalyMode := rfl

lemma addAnomaly_anomalyModeStart (s : SimState) (idNow : ℤ)
    (ts st ti de : String) (tg : List String) (sv : String) :
    (addAnomaly s idNow ts st ti de tg sv).anomalyModeStart =
      s.anomalyModeStart := rfl

lemma addAnomaly_nextAnomalyTick (s : SimState) (idNow : ℤ)
    (ts st ti de : String) (tg : List String) (sv : String) :
    (addAnomaly s idNow ts st ti de tg sv).nextAnomalyTick =
      s.nextAnomalyTick := rfl

lemma addAnomaly_trendData (s : SimState) (idNow : ℤ) (ts st ti de : String)
    (tg : List String) (sv : String) :
    (addAnomaly s idNow ts st ti de tg sv).trendData = s.trendData := rfl

lemma addAnomaly_correlations (s : SimState) (idNow : ℤ) (ts st ti de : String)
    (tg : List String) (sv : String) :
    (addAnomaly s idNow ts st ti de tg sv).correlations = s.correlations := rfl

lemma addAnomaly_risks (s : SimState) (idNow : ℤ) (ts st ti de : String)
    (tg : List String) (sv : String) :
    (addAnomaly s idNow ts st ti de tg sv).risks = s.risks := rfl

/-- `addAnomaly` in take-15 form, given the log respects its capacity. -/
lemma addAnomaly_anomalies (s : SimState) (idNow : ℤ) (ts st ti de : String)
    (tg : List String) (sv : String) (hlen : s.anomalies.length ≤ 15) :
    (addAnomaly s idNow ts st ti de tg sv).anomalies =
      ({ id := idNow, time := ts, title := ti, description := de, tags := tg,
         severity := sv, status := st : Anomaly } :: s.anomalies).take 15 := by
  set ev : Anomaly :=
    { id := idNow, time := ts, title := ti, description := de, tags := tg,
      severity := sv, status := st } with hev
  show (if (ev :: s.anomalies).length > 15 then (ev :: s.anomalies).dropLast
      else ev :: s.anomalies) = (ev :: s.anomalies).take 15
  rcases lt_or_eq_of_le hlen with hlt | heq
  · rw [if_neg (by simp; omega), List.take_of_length_le (by simp; omega)]
  · rw [if_pos (by simp; omega), List.dropLast_eq_take]
    have hle : (ev :: s.anomalies).length - 1 = 15 := by simp [← heq]
    rw [hle]

lemma addAnomaly_length_le (s : SimState) (idNow : ℤ) (ts st ti de : String)
    (tg : List String) (sv : String) (hlen : s.anomalies.length ≤ 15) :
    (addAnomaly s idNow ts st ti de tg sv).anomalies.length ≤ 15 := by
  rw [addAnomaly_anomalies s idNow ts st ti de tg sv hlen]
  exact le_trans (List.length_take_le _ _) (le_refl 15)

lemma generateVital_vitals (s : SimState) (sig : Sig) (g1 g2 r : ℝ)
    (idNow : ℤ) (ts : String) (t : Sig) :
    (generateVital s sig g1 g2 r idNow ts).vitals t =
      if t = sig then
        { s.vitals sig with
            value := gvValue s sig g1 g2,
            history := gvHistory s sig g1 g2 }
      else s.vitals t := by
  show (Function.update _ sig _) t = _
  rw [Function.update_apply]
  split
  · rfl
  · split <;> rfl

lemma generateVital_tick (s : SimState) (sig : Sig) (g1 g2 r : ℝ)
    (idNow : ℤ) (ts : String) :
    (generateVital s sig g1 g2 r idNow ts).tick = s.tick := by
  show (if _ then _ else _ : SimState).tick = _
  split <;> rfl

lemma generateVital_anomalyModeStart (s : SimState) (sig : Sig) (g1 g2 r : ℝ)
    (idNow : ℤ) (ts : String) :
    (generateVital s sig g1 g2 r idNow ts).anomalyModeStart =
      s.anomalyModeStart := by
  show (if _ then _ else _ : SimState).anomalyModeStart = _
  split <;> rfl

lemma generateVital_trendData (s : SimState) (sig : Sig) (g1 g2 r : ℝ)
    (idNow : ℤ) (ts : String) :
    (generateVital s sig g1 g2 r idNow ts).trendData = s.trendData := by
  show (if _ then _ else _ : SimState).trendData = _
  split <;> rfl

lemma generateVital_correlations (s : SimState) (sig : Sig) (g1 g2 r : ℝ)
    (idNow : ℤ) (ts : String) :
    (generateVital s sig g1 g2 r idNow ts).correlations = s.correlations := by
  show (if _ then _ else _ : SimState).correlations = _
  split <;> rfl

lemma generateVital_risks (s : SimState) (sig : Sig) (g1 g2 r : ℝ)
    (idNow : ℤ) (ts : String) :
    (generateVital s sig g1 g2 r idNow ts).risks = s.risks := by
  show (if _ then _ else _ : SimState).risks = _
  split <;> rfl

/-- When the auto-resolve branch does not fire, `generateVital` leaves the
whole anomaly bookkeeping untouched. -/
lemma generateVital_anomaly_of_not (s : SimState) (sig : Sig) (g1 g2 r : ℝ)
    (idNow : ℤ) (ts : String)
    (h : ¬(s.anomalyMode = true ∧ 20 < s.tick - s.anomalyModeStart)) :
    (generateVital s sig g1 g2 r idNow ts).anomalyMode = s.anomalyMode ∧
    (generateVital s sig g1 g2 r idNow ts).anomalies = s.anomalies ∧
    (generateVital s sig g1 g2 r idNow ts).anomalyStats = s.anomalyStats ∧
    (generateVital s sig g1 g2 r idNow ts).nextAnomalyTick =
      s.nextAnomalyTick := by
  simp only [generateVital]
  rw [if_neg h]
  exact ⟨rfl, rfl, rfl, rfl⟩

/-- When the auto-resolve branch fires, `generateVital` clears anomaly
mode, appends the auto-resolved event and reschedules the next episode. -/
lemma generateVital_anomaly_of_res (s : SimState) (sig : Sig) (g1 g2 r : ℝ)
    (idNow : ℤ) (ts : String)
    (h : s.anomalyMode = true ∧ 20 < s.tick - s.anomalyModeStart) :
    (generateVital s sig g1 g2 r idNow ts).anomalyMode = false ∧
    (generateVital s sig g1 g2 r idNow ts).anomalies =
      (addAnomaly { s with anomalyMode := false } idNow ts
        ("auto-resolved") ("Multi-Signal Pattern Normalized")
        ("Correlation patterns have returned to baseline. The transient divergence resolved without intervention.")
        ["HR", "SpO2", "HRV"] ("low")).anomalies ∧
    (generateVital s sig g1 g2 r idNow ts).nextAnomalyTick =
      s.tick + 25 + ⌊r * 20⌋ := by
  simp only [generateVital]
  rw [if_pos h]
  exact ⟨rfl, rfl, rfl⟩

/-! ### Basic arithmetic lemmas about the utilities -/

lemma le_clamp (x lo hi : ℝ) : lo ≤ clamp x lo hi := le_max_left _ _

lemma clamp_le (x lo hi : ℝ) (h : lo ≤ hi) : clamp x lo hi ≤ hi :=
  max_le h (min_le_left _ _)

lemma clamp_eq_self (x lo hi : ℝ) (h1 : lo ≤ x) (h2 : x ≤ hi) :
    clamp x lo hi = x := by
  unfold clamp
  rw [min_eq_right h2, max_eq_right h1]

lemma floor_intCast_div_real (n : ℤ) (d : ℕ) :
    ⌊(n : ℝ) / (d : ℝ)⌋ = n / (d : ℤ) := by
  rw [show (n : ℝ) / (d : ℝ) = ((((n : ℚ) / (d : ℚ)) : ℚ) : ℝ) by push_cast; ring,
    Rat.floor_cast, Rat.floor_intCast_div_natCast]

/-- Rounding to one decimal place keeps a clamped value inside `[lo, hi]`
whenever both bounds are integer multiples of `1/10`. -/
lemma jsRound_clamp_mem (x lo hi : ℝ) (a b : ℤ)
    (ha : lo = (a : ℝ) / 10) (hb : hi = (b : ℝ) / 10) (hab : lo ≤ hi) :
    lo ≤ jsRound (clamp x lo hi * 10) / 10 ∧
      jsRound (clamp x lo hi * 10) / 10 ≤ hi := by
  subst ha
  subst hb
  have hc1 : (a : ℝ) / 10 ≤ clamp x ((a : ℝ) / 10) ((b : ℝ) / 10) := le_clamp _ _ _
  have hc2 : clamp x ((a : ℝ) / 10) ((b : ℝ) / 10) ≤ (b : ℝ) / 10 :=
    clamp_le _ _ _ hab
  have hca : (a : ℝ) ≤ clamp x ((a : ℝ) / 10) ((b : ℝ) / 10) * 10 := by linarith
  have hcb : clamp x ((a : ℝ) / 10) ((b : ℝ) / 10) * 10 ≤ (b : ℝ) := by linarith
  have hfa : a ≤ ⌊clamp x ((a : ℝ) / 10) ((b : ℝ) / 10) * 10 + 1 / 2⌋ :=
    Int.le_floor.mpr (by linarith)
  have hfb : ⌊clamp x ((a : ℝ) / 10) ((b : ℝ) / 10) * 10 + 1 / 2⌋ ≤ b := by
    have : ⌊clamp x ((a : ℝ) / 10) ((b : ℝ) / 10) * 10 + 1 / 2⌋ < b + 1 := by
      apply Int.floor_lt.mpr
      push_cast
      linarith
    omega
  unfold jsRound
  have h1 : (a : ℝ) ≤
      (⌊clamp x ((a : ℝ) / 10) ((b : ℝ) / 10) * 10 + 1 / 2⌋ : ℝ) := by
    exact_mod_cast hfa
  have h2 : ((⌊clamp x ((a : ℝ) / 10) ((b : ℝ) / 10) * 10 + 1 / 2⌋ : ℤ) : ℝ) ≤
      (b : ℝ) := by
    exact_mod_cast hfb
  constructor
  · linarith
  · linarith

/-! ### Risk smoothing (C9, C3 infrastructure) -/

/-- One exponential-smoothing step on a risk record, as performed by
`renderRisks` on each category. -/
def smoothR (k : Risk) : Risk := { k with value := lerp k.value k.target 0.1 }

lemma renderRisks_risks (s : SimState) :
    (renderRisks s).risks =
      { cardio := smoothR s.risks.cardio,
        respiratory := smoothR s.risks.respiratory,
        metabolic := smoothR s.risks.metabolic,
        apnea := smoothR s.risks.apnea } := rfl

lemma iterate_renderRisks_risks (s : SimState) (n : ℕ) :
    (renderRisks^[n] s).risks =
      { cardio := smoothR^[n] s.risks.cardio,
        respiratory := smoothR^[n] s.risks.respiratory,
        metabolic := smoothR^[n] s.risks.metabolic,
        apnea := smoothR^[n] s.risks.apnea } := by
  induction n with
  | zero => rfl
  | succ n ih =>
    rw [Function.iterate_succ_apply', Function.iterate_succ_apply',
      Function.iterate_succ_apply', Function.iterate_succ_apply',
      Function.iterate_succ_apply', renderRisks_risks, ih]

lemma smoothR_iter_target (k : Risk) (n : ℕ) :
    (smoothR^[n] k).target = k.target := by
  induction n with
  | zero => rfl
  | succ n ih => rw [Function.iterate_succ_apply', smoothR, ih]

lemma smoothR_iter_value (k : Risk) (n : ℕ) :
    (smoothR^[n] k).value = k.target - (k.target - k.value) * 0.9 ^ n := by
  induction n with
  | zero => simp
  | succ n ih =>
    rw [Function.iterate_succ_apply']
    show lerp (smoothR^[n] k).value (smoothR^[n] k).target 0.1 = _
    rw [ih, smoothR_iter_target, lerp, pow_succ]
    ring

/-- C9: for every risk category, iterating the smoothing step of
`renderRisks` with the target held constant gives the geometric law
`value_n = target - (target - value_0) * 0.9 ^ n`; starting from the
initial state (value 12, target 12 for cardio) the value stays 12. -/
theorem risk_smoothing_geometric (s : SimState) (n : ℕ) :
    ((renderRisks^[n] s).risks.cardio.value =
        s.risks.cardio.target - (s.risks.cardio.target - s.risks.cardio.value) * 0.9 ^ n ∧
      (renderRisks^[n] s).risks.respiratory.value =
        s.risks.respiratory.target -
          (s.risks.respiratory.target - s.risks.respiratory.value) * 0.9 ^ n ∧
      (renderRisks^[n] s).risks.metabolic.value =
        s.risks.metabolic.target -
          (s.risks.metabolic.target - s.risks.metabolic.value) * 0.9 ^ n ∧
      (renderRisks^[n] s).risks.apnea.value =
        s.risks.apnea.target - (s.risks.apnea.target - s.risks.apnea.value) * 0.9 ^ n) ∧
    (renderRisks^[n] state0).risks.cardio.value = 12 := by
  refine ⟨⟨?_, ?_, ?_, ?_⟩, ?_⟩
  · rw [iterate_renderRisks_risks]; exact smoothR_iter_value _ n
  · rw [iterate_renderRisks_risks]; exact smoothR_iter_value _ n
  · rw [iterate_renderRisks_risks]; exact smoothR_iter_value _ n
  · rw [iterate_renderRisks_risks]; exact smoothR_iter_value _ n
  · rw [iterate_renderRisks_risks]
    have h := smoothR_iter_value state0.risks.cardio n
    have h12 : state0.risks.cardio.target = 12 ∧ state0.risks.cardio.value = 12 := by
      constructor <;> rfl
    rw [h, h12.1, h12.2]
    ring

/-! ### The bounded anomaly event log (C7) -/

/-- C7: `addAnomaly` inserts the new event at the front, keeps at most 15
events (evicting the oldest, i.e. the last of the list), and recomputes
the aggregate statistics from the stored log. -/
theorem anomaly_log_bounded (s : SimState) (idNow : ℤ)
    (ts st ti de : String) (tg : List String) (sv : String)
    (hlen : s.anomalies.length ≤ 15) :
    (addAnomaly s idNow ts st ti de tg sv).anomalies.length ≤ 15 ∧
    (addAnomaly s idNow ts st ti de tg sv).anomalies =
      ({ id := idNow, time := ts, title := ti, description := de, tags := tg,
         severity := sv, status := st : Anomaly } :: s.anomalies).take 15 ∧
    (addAnomaly s idNow ts st ti de tg sv).anomalyStats.total =
      (addAnomaly s idNow ts st ti de tg sv).anomalies.length ∧
    (addAnomaly s idNow ts st ti de tg sv).anomalyStats.critical =
      ((addAnomaly s idNow ts st ti de tg sv).anomalies.filter (fun a =>
        a.severity == ("high") || a.status == ("active"))).length ∧
    (addAnomaly s idNow ts st ti de tg sv).anomalyStats.resolved =
      ((addAnomaly s idNow ts st ti de tg sv).anomalies.filter (fun a =>
        a.status == ("auto-resolved"))).length := by
  set ev : Anomaly :=
    { id := idNow, time := ts, title := ti, description := de, tags := tg,
      severity := sv, status := st } with hev
  have hform : (addAnomaly s idNow ts st ti de tg sv).anomalies =
      (ev :: s.anomalies).take 15 := by
    show (if (ev :: s.anomalies).length > 15 then (ev :: s.anomalies).dropLast
        else ev :: s.anomalies) = (ev :: s.anomalies).take 15
    rcases lt_or_eq_of_le hlen with hlt | heq
    · rw [if_neg (by simp; omega), List.take_of_length_le (by simp; omega)]
    · rw [if_pos (by simp; omega), List.dropLast_eq_take]
      have hle : (ev :: s.anomalies).length - 1 = 15 := by simp [← heq]
      rw [hle]
  refine ⟨?_, hform, rfl, rfl, rfl⟩
  rw [hform]
  exact le_trans (List.length_take_le _ _) (le_refl 15)

/-! ### Stage decomposition of `updateAllVitals` -/

/-- The tick increment and the Idle-to-Active trigger check at the top of
`updateAllVitals` (src/app.js lines 127-136). -/
noncomputable def tickStart (s : SimState) (o : TickOracle) : SimState :=
  let s0 := { s with tick := s.tick + 1 }
  if s0.anomalyMode = false ∧ s0.nextAnomalyTick ≤ s0.tick then
    addAnomaly { s0 with anomalyMode := true, anomalyModeStart := s0.tick }
      o.idNow o.timeStr ("active")
      ("Multi-Signal Correlation Divergence Detected")
      ("HR-SpO2 inverse correlation strengthening while HRV is declining. This pattern may indicate early-stage autonomic stress response. Monitoring closely.")
      [("HR↔SpO2"), ("HRV Decline"), ("Correlation Shift")] ("medium")
  else s0

/-- The correlation-matrix rebuild step of `updateAllVitals`. -/
noncomputable def corrStage (s : SimState) : SimState :=
  { s with correlations := updateCorrelations s.vitals s.correlations }

lemma updateAllVitals_eq (s : SimState) (o : TickOracle) :
    updateAllVitals s o =
      renderRisks (updateRisks (corrStage (trendSignals.foldl trendStep
        (CONFIG.signals.foldl (genStep o) (tickStart s o))))) := rfl

lemma genStep_def (o : TickOracle) (st : SimState) (sig : Sig) :
    genStep o st sig =
      generateVital st sig (o.g1 sig) (o.g2 sig) o.r o.idNow o.timeStr := rfl

lemma tickStart_of_trigger (s : SimState) (o : TickOracle)
    (h1 : s.anomalyMode = false) (h2 : s.nextAnomalyTick ≤ s.tick + 1) :
    tickStart s o =
      addAnomaly { s with
          tick := s.tick + 1,
          anomalyMode := true,
          anomalyModeStart := s.tick + 1 }
        o.idNow o.timeStr ("active")
        ("Multi-Signal Correlation Divergence Detected")
        ("HR-SpO2 inverse correlation strengthening while HRV is declining. This pattern may indicate early-stage autonomic stress response. Monitoring closely.")
        [("HR↔SpO2"), ("HRV Decline"), ("Correlation Shift")] ("medium") := by
  simp only [tickStart]
  rw [if_pos ⟨h1, h2⟩]

lemma tickStart_of_skip (s : SimState) (o : TickOracle)
    (h : ¬(s.anomalyMode = false ∧ s.nextAnomalyTick ≤ s.tick + 1)) :
    tickStart s o = { s with tick := s.tick + 1 } := by
  simp only [tickStart]
  rw [if_neg h]

lemma tickStart_vitals (s : SimState) (o : TickOracle) :
    (tickStart s o).vitals = s.vitals := by
  simp only [tickStart]
  split <;> rfl

lemma tickStart_trendData (s : SimState) (o : TickOracle) :
    (tickStart s o).trendData = s.trendData := by
  simp only [tickStart]
  split <;> rfl

lemma tickStart_tick (s : SimState) (o : TickOracle) :
    (tickStart s o).tick = s.tick + 1 := by
  simp only [tickStart]
  split <;> rfl

lemma trendStep_vitals (st : SimState) (sig : Sig) :
    (trendStep st sig).vitals = st.vitals := rfl

lemma trendStep_anomaly (st : SimState) (sig : Sig) :
    (trendStep st sig).anomalyMode = st.anomalyMode ∧
    (trendStep st sig).anomalies = st.anomalies ∧
    (trendStep st sig).anomalyStats = st.anomalyStats ∧
    (trendStep st sig).nextAnomalyTick = st.nextAnomalyTick ∧
    (trendStep st sig).anomalyModeStart = st.anomalyModeStart ∧
    (trendStep st sig).tick = st.tick := ⟨rfl, rfl, rfl, rfl, rfl, rfl⟩

lemma foldl_trendStep_vitals (L : List Sig) (st : SimState) :
    (L.foldl trendStep st).vitals = st.vitals := by
  induction L generalizing st with
  | nil => rfl
  | cons a L ih => rw [List.foldl_cons, ih, trendStep_vitals]

lemma foldl_trendStep_anomaly (L : List Sig) (st : SimState) :
    (L.foldl trendStep st).anomalyMode = st.anomalyMode ∧
    (L.foldl trendStep st).anomalies = st.anomalies ∧
    (L.foldl trendStep st).anomalyStats = st.anomalyStats ∧
    (L.foldl trendStep st).nextAnomalyTick = st.nextAnomalyTick ∧
    (L.foldl trendStep st).anomalyModeStart = st.anomalyModeStart ∧
    (L.foldl trendStep st).tick = st.tick := by
  induction L generalizing st with
  | nil => exact ⟨rfl, rfl, rfl, rfl, rfl, rfl⟩
  | cons a L ih => exact ih (trendStep st a)

/-- While anomaly mode is off, the signal loop leaves all anomaly
bookkeeping (and the tick counter) unchanged. -/
lemma foldl_genStep_inactive (o : TickOracle) (L : List Sig) (st : SimState)
    (h : st.anomalyMode = false) :
    (L.foldl (genStep o) st).anomalyMode = false ∧
    (L.foldl (genStep o) st).anomalies = st.anomalies ∧
    (L.foldl (genStep o) st).anomalyStats = st.anomalyStats ∧
    (L.foldl (genStep o) st).nextAnomalyTick = st.nextAnomalyTick ∧
    (L.foldl (genStep o) st).anomalyModeStart = st.anomalyModeStart ∧
    (L.foldl (genStep o) st).tick = st.tick := by
  induction L generalizing st with
  | nil => exact ⟨h, rfl, rfl, rfl, rfl, rfl⟩
  | cons a L ih =>
    rw [List.foldl_cons]
    have hna : ¬(st.anomalyMode = true ∧ 20 < st.tick - st.anomalyModeStart) := by
      simp [h]
    have e := generateVital_anomaly_of_not st a (o.g1 a) (o.g2 a) o.r o.idNow
      o.timeStr hna
    have et := generateVital_tick st a (o.g1 a) (o.g2 a) o.r o.idNow o.timeStr
    have es := generateVital_anomalyModeStart st a (o.g1 a) (o.g2 a) o.r o.idNow
      o.timeStr
    have hm : (genStep o st a).anomalyMode = false := by
      rw [genStep_def, e.1, h]
    obtain ⟨i1, i2, i3, i4, i5, i6⟩ := ih (genStep o st a) hm
    refine ⟨i1, ?_, ?_, ?_, ?_, ?_⟩
    · rw [i2, genStep_def, e.2.1]
    · rw [i3, genStep_def, e.2.2.1]
    · rw [i4, genStep_def, e.2.2.2]
    · rw [i5, genStep_def, es]
    · rw [i6, genStep_def, et]

/-- While anomaly mode is on but at most 20 ticks have elapsed, the signal
loop leaves all anomaly bookkeeping unchanged (no auto-resolve yet). -/
lemma foldl_genStep_active (o : TickOracle) (L : List Sig) (st : SimState)
    (h : st.anomalyMode = true) (he : st.tick - st.anomalyModeStart ≤ 20) :
    (L.foldl (genStep o) st).anomalyMode = true ∧
    (L.foldl (genStep o) st).anomalies = st.anomalies ∧
    (L.foldl (genStep o) st).anomalyStats = st.anomalyStats ∧
    (L.foldl (genStep o) st).nextAnomalyTick = st.nextAnomalyTick ∧
    (L.foldl (genStep o) st).anomalyModeStart = st.anomalyModeStart ∧
    (L.foldl (genStep o) st).tick = st.tick := by
  induction L generalizing st with
  | nil => exact ⟨h, rfl, rfl, rfl, rfl, rfl⟩
  | cons a L ih =>
    rw [List.foldl_cons]
    have hna : ¬(st.anomalyMode = true ∧ 20 < st.tick - st.anomalyModeStart) := by
      intro hc
      omega
    have e := generateVital_anomaly_of_not st a (o.g1 a) (o.g2 a) o.r o.idNow
      o.timeStr hna
    have et := generateVital_tick st a (o.g1 a) (o.g2 a) o.r o.idNow o.timeStr
    have es := generateVital_anomalyModeStart st a (o.g1 a) (o.g2 a) o.r o.idNow
      o.timeStr
    have hm : (genStep o st a).anomalyMode = true := by
      rw [genStep_def, e.1, h]
    have he' : (genStep o st a).tick - (genStep o st a).anomalyModeStart ≤ 20 := by
      rw [genStep_def, et, es]
      exact he
    obtain ⟨i1, i2, i3, i4, i5, i6⟩ := ih (genStep o st a) hm he'
    refine ⟨i1, ?_, ?_, ?_, ?_, ?_⟩
    · rw [i2, genStep_def, e.2.1]
    · rw [i3, genStep_def, e.2.2.1]
    · rw [i4, genStep_def, e.2.2.2]
    · rw [i5, genStep_def, es]
    · rw [i6, genStep_def, et]

lemma corrStage_proj (s : SimState) :
    (corrStage s).vitals = s.vitals ∧ (corrStage s).trendData = s.trendData ∧
    (corrStage s).anomalyMode = s.anomalyMode ∧
    (corrStage s).anomalies = s.anomalies ∧
    (corrStage s).anomalyStats = s.anomalyStats ∧
    (corrStage s).nextAnomalyTick = s.nextAnomalyTick ∧
    (corrStage s).anomalyModeStart = s.anomalyModeStart ∧
    (corrStage s).tick = s.tick :=
  ⟨rfl, rfl, rfl, rfl, rfl, rfl, rfl, rfl⟩

lemma updateRisks_proj (s : SimState) :
    (updateRisks s).vitals = s.vitals ∧ (updateRisks s).trendData = s.trendData ∧
    (updateRisks s).anomalyMode = s.anomalyMode ∧
    (updateRisks s).anomalies = s.anomalies ∧
    (updateRisks s).anomalyStats = s.anomalyStats ∧
    (updateRisks s).nextAnomalyTick = s.nextAnomalyTick ∧
    (updateRisks s).anomalyModeStart = s.anomalyModeStart ∧
    (updateRisks s).tick = s.tick ∧
    (updateRisks s).correlations = s.correlations :=
  ⟨rfl, rfl, rfl, rfl, rfl, rfl, rfl, rfl, rfl⟩

lemma renderRisks_proj (s : SimState) :
    (renderRisks s).vitals = s.vitals ∧ (renderRisks s).trendData = s.trendData ∧
    (renderRisks s).anomalyMode = s.anomalyMode ∧
    (renderRisks s).anomalies = s.anomalies ∧
    (renderRisks s).anomalyStats = s.anomalyStats ∧
    (renderRisks s).nextAnomalyTick = s.nextAnomalyTick ∧
    (renderRisks s).anomalyModeStart = s.anomalyModeStart ∧
    (renderRisks s).tick = s.tick ∧
    (renderRisks s).correlations = s.correlations :=
  ⟨rfl, rfl, rfl, rfl, rfl, rfl, rfl, rfl, rfl⟩

/-- The anomaly bookkeeping of a whole tick equals that of the signal loop
applied to the trigger stage: the later stages never touch it. -/
lemma updateAllVitals_anomaly (s : SimState) (o : TickOracle) :
    (updateAllVitals s o).anomalyMode =
      (CONFIG.signals.foldl (genStep o) (tickStart s o)).anomalyMode ∧
    (updateAllVitals s o).anomalies =
      (CONFIG.signals.foldl (genStep o) (tickStart s o)).anomalies ∧
    (updateAllVitals s o).anomalyStats =
      (CONFIG.signals.foldl (genStep o) (tickStart s o)).anomalyStats ∧
    (updateAllVitals s o).nextAnomalyTick =
      (CONFIG.signals.foldl (genStep o) (tickStart s o)).nextAnomalyTick ∧
    (updateAllVitals s o).anomalyModeStart =
      (CONFIG.signals.foldl (genStep o) (tickStart s o)).anomalyModeStart ∧
    (updateAllVitals s o).tick =
      (CONFIG.signals.foldl (genStep o) (tickStart s o)).tick := by
  rw [updateAllVitals_eq]
  obtain ⟨t1, t2, t3, t4, t5, t6⟩ :=
    foldl_trendStep_anomaly trendSignals (CONFIG.signals.foldl (genStep o) (tickStart s o))
  exact ⟨by rw [(renderRisks_proj _).2.2.1, (updateRisks_proj _).2.2.1,
      (corrStage_proj _).2.2.1, t1],
    by rw [(renderRisks_proj _).2.2.2.1, (updateRisks_proj _).2.2.2.1,
      (corrStage_proj _).2.2.2.1, t2],
    by rw [(renderRisks_proj _).2.2.2.2.1, (updateRisks_proj _).2.2.2.2.1,
      (corrStage_proj _).2.2.2.2.1, t3],
    by rw [(renderRisks_proj _).2.2.2.2.2.1, (updateRisks_proj _).2.2.2.2.2.1,
      (corrStage_proj _).2.2.2.2.2.1, t4],
    by rw [(renderRisks_proj _).2.2.2.2.2.2.1, (updateRisks_proj _).2.2.2.2.2.2.1,
      (corrStage_proj _).2.2.2.2.2.2.1, t5],
    by rw [(renderRisks_proj _).2.2.2.2.2.2.2.1, (updateRisks_proj _).2.2.2.2.2.2.2.1,
      (corrStage_proj _).2.2.2.2.2.2.2, t6]⟩

/-! ### The per-signal invariant (C1) -/

/-- The per-vital invariant: value within bounds, history within the chart
capacity, and both bounds on the one-decimal grid (true of every default
signal), with `min ≤ max`. -/
def VitalOK (v : Vital) : Prop :=
  v.min ≤ v.value ∧ v.value ≤ v.max ∧ v.history.length ≤ 40 ∧
    (∃ a : ℤ, v.min = (a : ℝ) / 10) ∧ (∃ b : ℤ, v.max = (b : ℝ) / 10) ∧
    v.min ≤ v.max

/-- The redundant spo2/temp rounding branches of `generateVital` collapse:
every signal stores the clamped raw value rounded to one decimal place. -/
lemma gvValue_eq (s : SimState) (sig : Sig) (g1 g2 : ℝ) :
    gvValue s sig g1 g2 =
      jsRound (clamp (gvRaw s sig g1 g2) (s.vitals sig).min
        (s.vitals sig).max * 10) / 10 := by
  cases sig <;> simp [gvValue]

lemma gvHistory_length (s : SimState) (sig : Sig) (g1 g2 : ℝ)
    (h : (s.vitals sig).history.length ≤ 40) :
    (gvHistory s sig g1 g2).length ≤ 40 := by
  unfold gvHistory
  simp only [CONFIG.chartPoints]
  split
  · simp only [List.length_tail, List.length_append, List.length_singleton]
    omega
  · rename_i hle
    simp only [gt_iff_lt, not_lt, List.length_append, List.length_singleton]
      at hle ⊢
    omega

lemma generateVital_VitalOK (s : SimState) (sig : Sig) (g1 g2 r : ℝ)
    (idNow : ℤ) (ts : String) (t : Sig) (h : VitalOK (s.vitals t)) :
    VitalOK ((generateVital s sig g1 g2 r idNow ts).vitals t) := by
  rw [generateVital_vitals]
  split
  · rename_i heq
    subst heq
    obtain ⟨h1, h2, h3, ⟨a, ha⟩, ⟨b, hb⟩, hab⟩ := h
    have hmem := jsRound_clamp_mem (gvRaw s t g1 g2) (s.vitals t).min
      (s.vitals t).max a b ha hb hab
    refine ⟨?_, ?_, ?_, ⟨a, ha⟩, ⟨b, hb⟩, hab⟩
    · show (s.vitals t).min ≤ gvValue s t g1 g2
      rw [gvValue_eq]
      exact hmem.1
    · show gvValue s t g1 g2 ≤ (s.vitals t).max
      rw [gvValue_eq]
      exact hmem.2
    · exact gvHistory_length s t g1 g2 h3
  · exact h

lemma foldl_genStep_VitalOK (o : TickOracle) (L : List Sig) (st : SimState)
    (h : ∀ t, VitalOK (st.vitals t)) :
    ∀ t, VitalOK ((L.foldl (genStep o) st).vitals t) := by
  induction L generalizing st with
  | nil => exact h
  | cons a L ih =>
    rw [List.foldl_cons]
    exact ih (genStep o st a) (fun t =>
      generateVital_VitalOK st a (o.g1 a) (o.g2 a) o.r o.idNow o.timeStr t (h t))

lemma trendStep_trend_le (st : SimState) (sig : Sig)
    (h : ∀ u, (st.trendData u).length ≤ 60) (t : Sig) :
    ((trendStep st sig).trendData t).length ≤ 60 := by
  show (Function.update st.trendData sig _ t).length ≤ 60
  rw [Function.update_apply]
  split
  · simp only [CONFIG.trendPoints]
    split
    · simp
      have := h sig
      omega
    · rename_i hle
      simp only [List.length_append, List.length_singleton] at hle ⊢
      omega
  · exact h t

lemma foldl_trendStep_trend_le (L : List Sig) (st : SimState)
    (h : ∀ u, (st.trendData u).length ≤ 60) :
    ∀ u, ((L.foldl trendStep st).trendData u).length ≤ 60 := by
  induction L generalizing st with
  | nil => exact h
  | cons a L ih =>
    rw [List.foldl_cons]
    exact ih (trendStep st a) (trendStep_trend_le st a h)

/-- The full state invariant behind C1. -/
def Inv (s : SimState) : Prop :=
  (∀ t, VitalOK (s.vitals t)) ∧ (∀ t, (s.trendData t).length ≤ 60)

lemma updateAllVitals_Inv (s : SimState) (o : TickOracle) (h : Inv s) :
    Inv (updateAllVitals s o) := by
  rw [updateAllVitals_eq]
  obtain ⟨hv, ht⟩ := h
  have hv1 : ∀ t, VitalOK ((tickStart s o).vitals t) := by
    intro t
    rw [tickStart_vitals]
    exact hv t
  have ht1 : ∀ u, ((tickStart s o).trendData u).length ≤ 60 := by
    intro u
    rw [tickStart_trendData]
    exact ht u
  have hv2 := foldl_genStep_VitalOK o CONFIG.signals (tickStart s o) hv1
  have ht2 : ∀ u, ((CONFIG.signals.foldl (genStep o) (tickStart s o)).trendData
      u).length ≤ 60 := by
    intro u
    have : (CONFIG.signals.foldl (genStep o) (tickStart s o)).trendData =
        (tickStart s o).trendData := by
      generalize tickStart s o = st
      induction CONFIG.signals generalizing st with
      | nil => rfl
      | cons a L ih =>
        rw [List.foldl_cons, ih, genStep_def, generateVital_trendData]
    rw [this]
    exact ht1 u
  refine ⟨fun t => ?_, fun u => ?_⟩
  · rw [(renderRisks_proj _).1, (updateRisks_proj _).1, (corrStage_proj _).1,
      foldl_trendStep_vitals]
    exact hv2 t
  · rw [(renderRisks_proj _).2.1, (updateRisks_proj _).2.1,
      (corrStage_proj _).2.1]
    exact foldl_trendStep_trend_le trendSignals _ ht2 u

lemma run_Inv (s : SimState) (os : List TickOracle) (h : Inv s) :
    Inv (run s os) := by
  induction os generalizing s with
  | nil => exact h
  | cons o os ih => exact ih (updateAllVitals s o) (updateAllVitals_Inv s o h)

lemma init_vitals (hd td : Sig → ℕ → ℝ) (idNow : ℤ) (ts : String) :
    (init hd td idNow ts).vitals = fun sig =>
      { state0.vitals sig with
          history := (List.range 15).map (fun i =>
            let noise := hd sig i * (state0.vitals sig).variance * 0.5
            let val := clamp ((state0.vitals sig).baseline + noise)
              (state0.vitals sig).min (state0.vitals sig).max
            if sig = Sig.temp ∨ sig = Sig.spo2 then jsRound (val * 10) / 10
            else jsRound (val * 10) / 10) } := rfl

lemma init_trendData (hd td : Sig → ℕ → ℝ) (idNow : ℤ) (ts : String) :
    (init hd td idNow ts).trendData = fun sig =>
      if sig ∈ trendSignals then
        (List.range 20).map (fun i =>
          let v := state0.vitals sig
          clamp (v.baseline + td sig i * v.variance * 0.5) v.min v.max)
      else [] := by
  show (addAnomaly _ _ _ _ _ _ _ _).trendData = _
  rw [addAnomaly_trendData, (renderRisks_proj _).2.1, (updateRisks_proj _).2.1]

lemma init_Inv (hd td : Sig → ℕ → ℝ) (idNow : ℤ) (ts : String) :
    Inv (init hd td idNow ts) := by
  refine ⟨fun t => ?_, fun u => ?_⟩
  · rw [init_vitals]
    cases t
    · exact ⟨by norm_num [state0], by norm_num [state0], by simp,
        ⟨550, by norm_num [state0]⟩, ⟨1050, by norm_num [state0]⟩,
        by norm_num [state0]⟩
    · exact ⟨by norm_num [state0], by norm_num [state0], by simp,
        ⟨920, by norm_num [state0]⟩, ⟨1000, by norm_num [state0]⟩,
        by norm_num [state0]⟩
    · exact ⟨by norm_num [state0], by norm_num [state0], by simp,
        ⟨950, by norm_num [state0]⟩, ⟨1500, by norm_num [state0]⟩,
        by norm_num [state0]⟩
    · exact ⟨by norm_num [state0], by norm_num [state0], by simp,
        ⟨600, by norm_num [state0]⟩, ⟨1000, by norm_num [state0]⟩,
        by norm_num [state0]⟩
    · exact ⟨by norm_num [state0], by norm_num [state0], by simp,
        ⟨965, by norm_num [state0]⟩, ⟨1010, by norm_num [state0]⟩,
        by norm_num [state0]⟩
    · exact ⟨by norm_num [state0], by norm_num [state0], by simp,
        ⟨100, by norm_num [state0]⟩, ⟨250, by norm_num [state0]⟩,
        by norm_num [state0]⟩
    · exact ⟨by norm_num [state0], by norm_num [state0], by simp,
        ⟨150, by norm_num [state0]⟩, ⟨800, by norm_num [state0]⟩,
        by norm_num [state0]⟩
  · simp only [init_trendData]
    split
    · simp
    · simp

/-- C1: starting from the default configuration, after any number of ticks
every signal's stored value stays within `[min, max]` (the rounding to one
decimal place after clamping cannot leave the range because every default
bound is a multiple of 0.1), the chart history never exceeds 40 samples
and the trend buffer never exceeds 60 samples. -/
theorem vitals_invariant (hd td : Sig → ℕ → ℝ) (idNow : ℤ) (ts : String)
    (os : List TickOracle) (sig : Sig) :
    ((run (init hd td idNow ts) os).vitals sig).min ≤
      ((run (init hd td idNow ts) os).vitals sig).value ∧
    ((run (init hd td idNow ts) os).vitals sig).value ≤
      ((run (init hd td idNow ts) os).vitals sig).max ∧
    ((run (init hd td idNow ts) os).vitals sig).history.length ≤ 40 ∧
    ((run (init hd td idNow ts) os).trendData sig).length ≤ 60 := by
  obtain ⟨hv, ht⟩ := run_Inv (init hd td idNow ts) os (init_Inv hd td idNow ts)
  obtain ⟨h1, h2, h3, _, _, _⟩ := hv sig
  exact ⟨h1, h2, h3, ht sig⟩

/-- Witness for C7 at a concrete input: the empty initial log. -/
theorem anomaly_log_bounded_witness :
    state0.anomalies.length ≤ 15 ∧
    (addAnomaly state0 0 ("t") ("info") ("a") ("b") [] ("low")).anomalies.length ≤ 15 :=
  ⟨by simp [state0],
   (anomaly_log_bounded state0 0 ("t") ("info") ("a") ("b") [] ("low")
      (by simp [state0])).1⟩

/-! ### Pearson correlation (C6) -/

lemma div_sqrt_mem_unit (n : ℕ) (f g : ℕ → ℝ)
    (h : Real.sqrt ((∑ i ∈ Finset.range n, f i ^ 2) *
      ∑ i ∈ Finset.range n, g i ^ 2) ≠ 0) :
    -1 ≤ (∑ i ∈ Finset.range n, f i * g i) /
        Real.sqrt ((∑ i ∈ Finset.range n, f i ^ 2) *
          ∑ i ∈ Finset.range n, g i ^ 2) ∧
      (∑ i ∈ Finset.range n, f i * g i) /
        Real.sqrt ((∑ i ∈ Finset.range n, f i ^ 2) *
          ∑ i ∈ Finset.range n, g i ^ 2) ≤ 1 := by
  set S := ∑ i ∈ Finset.range n, f i * g i with hS
  set A := ∑ i ∈ Finset.range n, f i ^ 2 with hA
  set B := ∑ i ∈ Finset.range n, g i ^ 2 with hB
  have hA0 : 0 ≤ A := Finset.sum_nonneg (fun i _ => sq_nonneg _)
  have hB0 : 0 ≤ B := Finset.sum_nonneg (fun i _ => sq_nonneg _)
  have hAB : 0 ≤ A * B := mul_nonneg hA0 hB0
  have hd0 : 0 < Real.sqrt (A * B) := lt_of_le_of_ne (Real.sqrt_nonneg _)
    (fun he => h he.symm)
  have hcs : S ^ 2 ≤ A * B := Finset.sum_mul_sq_le_sq_mul_sq _ f g
  have hsq : Real.sqrt (A * B) ^ 2 = A * B := Real.sq_sqrt hAB
  constructor
  · rw [le_div_iff₀ hd0]
    nlinarith [sq_nonneg (S + Real.sqrt (A * B))]
  · rw [div_le_one hd0]
    nlinarith [sq_nonneg (S - Real.sqrt (A * B))]

lemma pearson_mem_unit (x y : List ℝ) :
    -1 ≤ pearsonCorrelation x y ∧ pearsonCorrelation x y ≤ 1 := by
  simp only [pearsonCorrelation]
  split
  · norm_num
  · split
    · norm_num
    · rename_i hd
      exact div_sqrt_mem_unit _ _ _ hd

lemma pearson_short (x y : List ℝ) (h : Nat.min x.length y.length < 5) :
    pearsonCorrelation x y = 0 := by
  simp only [pearsonCorrelation]
  rw [if_pos h]

/-- A truncated series whose entries are all the same constant contributes
a zero sum of squared deviations. -/
lemma sum_sq_dev_const (l : List ℝ) (n : ℕ) (hl : l.length = n) (hn : n ≠ 0)
    (c : ℝ) (hc : ∀ a ∈ l, a = c) :
    ∑ i ∈ Finset.range n,
      (l.getD i 0 - (∑ i ∈ Finset.range n, l.getD i 0) / n) ^ 2 = 0 := by
  have hget : ∀ i ∈ Finset.range n, l.getD i 0 = c := by
    intro i hi
    rw [Finset.mem_range] at hi
    have hil : i < l.length := by omega
    rw [List.getD_eq_getElem l 0 hil]
    exact hc _ (List.getElem_mem hil)
  have hsum : ∑ i ∈ Finset.range n, l.getD i 0 = n * c := by
    rw [Finset.sum_congr rfl hget]
    simp [mul_comm]
  have hmean : (∑ i ∈ Finset.range n, l.getD i 0) / n = c := by
    rw [hsum]
    field_simp
  rw [hmean]
  apply Finset.sum_eq_zero
  intro i hi
  rw [hget i hi]
  ring

lemma pearson_degenerate (x y : List ℝ) (c : ℝ)
    (h : (∀ a ∈ x.drop (x.length - Nat.min x.length y.length), a = c) ∨
         (∀ a ∈ y.drop (y.length - Nat.min x.length y.length), a = c)) :
    pearsonCorrelation x y = 0 := by
  simp only [pearsonCorrelation]
  split
  · rfl
  · rename_i hn5
    have hminx := Nat.min_le_left x.length y.length
    have hminy := Nat.min_le_right x.length y.length
    have hn : Nat.min x.length y.length ≠ 0 := by omega
    have hdx : (x.drop (x.length - Nat.min x.length y.length)).length =
        Nat.min x.length y.length := by
      rw [List.length_drop, Nat.sub_sub_self hminx]
    have hdy : (y.drop (y.length - Nat.min x.length y.length)).length =
        Nat.min x.length y.length := by
      rw [List.length_drop, Nat.sub_sub_self hminy]
    rcases h with hx | hy
    · have h0 := sum_sq_dev_const _ _ hdx hn c hx
      rw [h0, zero_mul, Real.sqrt_zero, if_pos rfl]
    · have h0 := sum_sq_dev_const _ _ hdy hn c hy
      rw [h0, mul_zero, Real.sqrt_zero, if_pos rfl]

/-- C6: every Pearson coefficient lies in [-1, 1]; rebuilt matrix diagonal
entries are exactly 1 (set directly); fewer than 5 overlapping samples give
exactly 0; and a truncated series with zero standard deviation (all entries
equal) gives exactly 0. -/
theorem correlation_coefficient_props :
    (∀ x y : List ℝ, -1 ≤ pearsonCorrelation x y ∧ pearsonCorrelation x y ≤ 1) ∧
    (∀ (vit : Sig → Vital) (old : Sig → Sig → ℝ) (i : Sig),
      i ∈ matrixSignals → updateCorrelations vit old i i = 1) ∧
    (∀ x y : List ℝ, Nat.min x.length y.length < 5 →
      pearsonCorrelation x y = 0) ∧
    (∀ (x y : List ℝ) (c : ℝ),
      (∀ a ∈ x.drop (x.length - Nat.min x.length y.length), a = c) ∨
      (∀ a ∈ y.drop (y.length - Nat.min x.length y.length), a = c) →
      pearsonCorrelation x y = 0) := by
  refine ⟨pearson_mem_unit, ?_, pearson_short, pearson_degenerate⟩
  intro vit old i hi
  unfold updateCorrelations
  rw [if_pos ⟨hi, hi⟩, if_pos rfl]

/-- Witness for C6 at concrete inputs: the diagonal entry for `hr`, a pair
of 2-sample series (too short), and a constant 5-sample series. -/
theorem correlation_coefficient_props_witness :
    (Sig.hr ∈ matrixSignals ∧
      updateCorrelations state0.vitals state0.correlations Sig.hr Sig.hr = 1) ∧
    (Nat.min ([(1 : ℝ), 2].length) ([(3 : ℝ), 4].length) < 5 ∧
      pearsonCorrelation [(1 : ℝ), 2] [(3 : ℝ), 4] = 0) ∧
    ((∀ a ∈ ([(5 : ℝ), 5, 5, 5, 5].drop
        ([(5 : ℝ), 5, 5, 5, 5].length -
          Nat.min ([(5 : ℝ), 5, 5, 5, 5].length)
            ([(1 : ℝ), 2, 3, 4, 5].length))), a = 5) ∧
      pearsonCorrelation [(5 : ℝ), 5, 5, 5, 5] [(1 : ℝ), 2, 3, 4, 5] = 0) :=
  ⟨⟨by decide, correlation_coefficient_props.2.1 state0.vitals
      state0.correlations Sig.hr (by decide)⟩,
   ⟨by norm_num, correlation_coefficient_props.2.2.1 _ _ (by norm_num)⟩,
   ⟨by norm_num, correlation_coefficient_props.2.2.2 _ _ 5
      (Or.inl (by norm_num))⟩⟩

/-! ### Risk targets and smoothing (C3, C8) -/

/-- A state reaching `updateRisks` with the heart-rate value displaced to
73 and all correlations zero: its raw cardio risk `(1/72)*30*100 = 125/3`
is not an integer, separating the stored (rounded) target from the
unrounded clamped weighted sum. -/
def sRisk : SimState :=
  let hr73 : Vital := { state0.vitals Sig.hr with value := 73 }
  { state0 with vitals := Function.update state0.vitals Sig.hr hr73 }

lemma sRisk_vitals_hr : sRisk.vitals Sig.hr =
    { state0.vitals Sig.hr with value := 73 } := by
  show Function.update state0.vitals Sig.hr
    ({ state0.vitals Sig.hr with value := 73 }) Sig.hr = _
  rw [Function.update_same]

lemma sRisk_vitals_ne (t : Sig) (h : t ≠ Sig.hr) :
    sRisk.vitals t = state0.vitals t := by
  show Function.update state0.vitals Sig.hr
    ({ state0.vitals Sig.hr with value := 73 }) t = _
  rw [Function.update_noteq h]

/-- The unrounded clamped cardio weighted sum at `sRisk` is `125/3`. -/
lemma sRisk_cardio_raw :
    clamp ((|(sRisk.vitals Sig.hr).value - (sRisk.vitals Sig.hr).baseline| /
        (sRisk.vitals Sig.hr).baseline * 30 +
      |(sRisk.vitals Sig.bp_sys).value - (sRisk.vitals Sig.bp_sys).baseline| /
        (sRisk.vitals Sig.bp_sys).baseline * 25 +
      |(sRisk.vitals Sig.hrv).value - (sRisk.vitals Sig.hrv).baseline| /
        (sRisk.vitals Sig.hrv).baseline * 25 +
      |sRisk.correlations Sig.hr Sig.bp_sys| * 20) * 100) 3 95 = 125 / 3 := by
  rw [sRisk_vitals_hr, sRisk_vitals_ne Sig.bp_sys (by decide),
    sRisk_vitals_ne Sig.hrv (by decide)]
  show clamp ((|(73 : ℝ) - 72| / 72 * 30 + |(120 : ℝ) - 120| / 120 * 25 +
    |(42 : ℝ) - 42| / 42 * 25 + |(0 : ℝ)| * 20) * 100) 3 95 = 125 / 3
  rw [clamp]
  norm_num

/-- The stored cardio target at `sRisk` is the rounded value 42. -/
lemma sRisk_cardio_target : (updateRisks sRisk).risks.cardio.target = 42 := by
  show jsRound (clamp ((|(sRisk.vitals Sig.hr).value -
      (sRisk.vitals Sig.hr).baseline| / (sRisk.vitals Sig.hr).baseline * 30 +
    |(sRisk.vitals Sig.bp_sys).value - (sRisk.vitals Sig.bp_sys).baseline| /
      (sRisk.vitals Sig.bp_sys).baseline * 25 +
    |(sRisk.vitals Sig.hrv).value - (sRisk.vitals Sig.hrv).baseline| /
      (sRisk.vitals Sig.hrv).baseline * 25 +
    |sRisk.correlations Sig.hr Sig.bp_sys| * 20) * 100) 3 95) = 42
  rw [sRisk_cardio_raw, jsRound]
  norm_num

/-- C8 (amended): each stored risk target is the category's weighted sum of
absolute relative deviations and absolute correlations, times 100, clamped
to the category range, and then rounded to the nearest integer. -/
theorem risk_targets_formula (s : SimState) :
    (updateRisks s).risks.cardio.target =
      jsRound (clamp ((|(s.vitals Sig.hr).value - (s.vitals Sig.hr).baseline| /
          (s.vitals Sig.hr).baseline * 30 +
        |(s.vitals Sig.bp_sys).value - (s.vitals Sig.bp_sys).baseline| /
          (s.vitals Sig.bp_sys).baseline * 25 +
        |(s.vitals Sig.hrv).value - (s.vitals Sig.hrv).baseline| /
          (s.vitals Sig.hrv).baseline * 25 +
        |s.correlations Sig.hr Sig.bp_sys| * 20) * 100) 3 95) ∧
    (updateRisks s).risks.respiratory.target =
      jsRound (clamp ((|(s.vitals Sig.spo2).value - (s.vitals Sig.spo2).baseline| /
          (s.vitals Sig.spo2).baseline * 35 +
        |(s.vitals Sig.rr).value - (s.vitals Sig.rr).baseline| /
          (s.vitals Sig.rr).baseline * 30 +
        |(s.vitals Sig.hr).value - (s.vitals Sig.hr).baseline| /
          (s.vitals Sig.hr).baseline * 15 +
        |s.correlations Sig.spo2 Sig.rr| * 20) * 100) 2 95) ∧
    (updateRisks s).risks.metabolic.target =
      jsRound (clamp ((|(s.vitals Sig.temp).value - (s.vitals Sig.temp).baseline| /
          (s.vitals Sig.temp).baseline * 30 +
        |(s.vitals Sig.hr).value - (s.vitals Sig.hr).baseline| /
          (s.vitals Sig.hr).baseline * 25 +
        |(s.vitals Sig.bp_sys).value - (s.vitals Sig.bp_sys).baseline| /
          (s.vitals Sig.bp_sys).baseline * 20 +
        |s.correlations Sig.temp Sig.hr| * 25) * 100) 3 95) ∧
    (updateRisks s).risks.apnea.target =
      jsRound (clamp ((|(s.vitals Sig.spo2).value - (s.vitals Sig.spo2).baseline| /
          (s.vitals Sig.spo2).baseline * 35 +
        |(s.vitals Sig.rr).value - (s.vitals Sig.rr).baseline| /
          (s.vitals Sig.rr).baseline * 25 +
        |(s.vitals Sig.hrv).value - (s.vitals Sig.hrv).baseline| /
          (s.vitals Sig.hrv).baseline * 20 +
        |s.correlations Sig.spo2 Sig.hrv| * 20) * 100) 1 95) :=
  ⟨rfl, rfl, rfl, rfl⟩

/-- Counterexample for C8 as stated: at `sRisk` the stored cardio target is
the integer 42, not the unrounded clamped weighted sum `125/3`. -/
theorem risk_target_not_unrounded :
    (updateRisks sRisk).risks.cardio.target ≠
      clamp ((|(sRisk.vitals Sig.hr).value - (sRisk.vitals Sig.hr).baseline| /
          (sRisk.vitals Sig.hr).baseline * 30 +
        |(sRisk.vitals Sig.bp_sys).value - (sRisk.vitals Sig.bp_sys).baseline| /
          (sRisk.vitals Sig.bp_sys).baseline * 25 +
        |(sRisk.vitals Sig.hrv).value - (sRisk.vitals Sig.hrv).baseline| /
          (sRisk.vitals Sig.hrv).baseline * 25 +
        |sRisk.correlations Sig.hr Sig.bp_sys| * 20) * 100) 3 95 := by
  rw [sRisk_cardio_target, sRisk_cardio_raw]
  norm_num

/-- C3 (amended): each displayed risk score is updated as
`value + (target - value) * 0.1`, where `target` is the clamped weighted
sum rounded to the nearest integer at storage time: the smoothing
converges toward the rounded target. -/
theorem risk_smoothing_step (s : SimState) :
    (renderRisks (updateRisks s)).risks.cardio.value =
      s.risks.cardio.value +
        ((updateRisks s).risks.cardio.target - s.risks.cardio.value) * 0.1 ∧
    (renderRisks (updateRisks s)).risks.respiratory.value =
      s.risks.respiratory.value +
        ((updateRisks s).risks.respiratory.target - s.risks.respiratory.value) * 0.1 ∧
    (renderRisks (updateRisks s)).risks.metabolic.value =
      s.risks.metabolic.value +
        ((updateRisks s).risks.metabolic.target - s.risks.metabolic.value) * 0.1 ∧
    (renderRisks (updateRisks s)).risks.apnea.value =
      s.risks.apnea.value +
        ((updateRisks s).risks.apnea.target - s.risks.apnea.value) * 0.1 ∧
    (updateRisks s).risks.cardio.target =
      jsRound (clamp ((|(s.vitals Sig.hr).value - (s.vitals Sig.hr).baseline| /
          (s.vitals Sig.hr).baseline * 30 +
        |(s.vitals Sig.bp_sys).value - (s.vitals Sig.bp_sys).baseline| /
          (s.vitals Sig.bp_sys).baseline * 25 +
        |(s.vitals Sig.hrv).value - (s.vitals Sig.hrv).baseline| /
          (s.vitals Sig.hrv).baseline * 25 +
        |s.correlations Sig.hr Sig.bp_sys| * 20) * 100) 3 95) :=
  ⟨rfl, rfl, rfl, rfl, rfl⟩

/-- Counterexample for C3 as stated: at `sRisk` the smoothed cardio value
moves toward the rounded target 42 (giving exactly 15), not toward the
unrounded clamped weighted sum `125/3` (which would give `449/30`). -/
theorem risk_smoothing_not_unrounded :
    (renderRisks (updateRisks sRisk)).risks.cardio.value ≠
      sRisk.risks.cardio.value +
        (clamp ((|(sRisk.vitals Sig.hr).value - (sRisk.vitals Sig.hr).baseline| /
            (sRisk.vitals Sig.hr).baseline * 30 +
          |(sRisk.vitals Sig.bp_sys).value - (sRisk.vitals Sig.bp_sys).baseline| /
            (sRisk.vitals Sig.bp_sys).baseline * 25 +
          |(sRisk.vitals Sig.hrv).value - (sRisk.vitals Sig.hrv).baseline| /
            (sRisk.vitals Sig.hrv).baseline * 25 +
          |sRisk.correlations Sig.hr Sig.bp_sys| * 20) * 100) 3 95 -
          sRisk.risks.cardio.value) * 0.1 := by
  have hval : (renderRisks (updateRisks sRisk)).risks.cardio.value =
      sRisk.risks.cardio.value +
        ((updateRisks sRisk).risks.cardio.target - sRisk.risks.cardio.value) * 0.1 :=
    rfl
  rw [hval, sRisk_cardio_target, sRisk_cardio_raw]
  show (12 : ℝ) + (42 - 12) * 0.1 ≠ 12 + (125 / 3 - 12) * 0.1
  norm_num

/-! ### Zero-variance dynamics (C2) -/

/-- With anomaly mode off and zero variance, the raw candidate value is
pure mean reversion: `value + (baseline - value) * 0.08`. -/
lemma gvRaw_zero_var (s : SimState) (sig : Sig) (g1 g2 : ℝ)
    (hm : s.anomalyMode = false) (hvar : (s.vitals sig).variance = 0) :
    gvRaw s sig g1 g2 = (s.vitals sig).value +
      ((s.vitals sig).baseline - (s.vitals sig).value) * 0.08 := by
  simp [gvRaw, hm, hvar]

/-- Integer core of the contraction analysis: one mean-reversion step on
the tenths grid maps offset `m` (in tenths) to `(46*m + 25) / 50`
(floor division); this never increases `|m|`, and strictly decreases it
once `|m| ≥ 7`. -/
lemma reversion_grid_step (m : ℤ) :
    ((46 * m + 25) / 50).natAbs ≤ m.natAbs ∧
      (7 ≤ m.natAbs → ((46 * m + 25) / 50).natAbs ≤ m.natAbs - 1) := by
  constructor
  · omega
  · intro h7
    omega

/-- The rounded value stored by a zero-variance, anomaly-off step, on the
tenths grid: numerator arithmetic. -/
lemma zero_var_step_floor (n j : ℤ) :
    jsRound (((n : ℝ) / 10 + ((j : ℝ) / 10 - (n : ℝ) / 10) * 0.08) * 10) =
      ((j + (46 * (n - j) + 25) / 50 : ℤ) : ℝ) := by
  have harg : ((n : ℝ) / 10 + ((j : ℝ) / 10 - (n : ℝ) / 10) * 0.08) * 10 + 1 / 2 =
      ((46 * n + 4 * j + 25 : ℤ) : ℝ) / (50 : ℕ) := by
    push_cast
    ring
  rw [jsRound, harg, floor_intCast_div_real]
  congr 1
  omega

/-- C2 (amended): with zero variance and anomaly mode off, for a signal
whose value, baseline and bounds all lie on the one-decimal grid, the
distance to baseline never increases under one `generateVital` step, and
decreases by at least 0.1 whenever it is at least 0.7 — so it eventually
stays within 0.6 of baseline, though it need not reach the baseline. -/
theorem zero_variance_contraction (s : SimState) (sig : Sig) (g1 g2 r : ℝ)
    (idNow : ℤ) (ts : String) (n j : ℤ)
    (hm : s.anomalyMode = false)
    (hvar : (s.vitals sig).variance = 0)
    (hv : (s.vitals sig).value = (n : ℝ) / 10)
    (hb : (s.vitals sig).baseline = (j : ℝ) / 10)
    (h1 : (s.vitals sig).min ≤ (s.vitals sig).value)
    (h2 : (s.vitals sig).value ≤ (s.vitals sig).max)
    (h3 : (s.vitals sig).min ≤ (s.vitals sig).baseline)
    (h4 : (s.vitals sig).baseline ≤ (s.vitals sig).max) :
    |((generateVital s sig g1 g2 r idNow ts).vitals sig).value -
        (s.vitals sig).baseline| ≤
      |(s.vitals sig).value - (s.vitals sig).baseline| ∧
    (7 / 10 ≤ |(s.vitals sig).value - (s.vitals sig).baseline| →
      |((generateVital s sig g1 g2 r idNow ts).vitals sig).value -
          (s.vitals sig).baseline| ≤
        |(s.vitals sig).value - (s.vitals sig).baseline| - 1 / 10) := by
  have hval : ((generateVital s sig g1 g2 r idNow ts).vitals sig).value =
      gvValue s sig g1 g2 := by
    rw [generateVital_vitals]
    rw [if_pos rfl]
  have hraw : gvRaw s sig g1 g2 = (s.vitals sig).value +
      ((s.vitals sig).baseline - (s.vitals sig).value) * 0.08 :=
    gvRaw_zero_var s sig g1 g2 hm hvar
  have hclamp : clamp (gvRaw s sig g1 g2) (s.vitals sig).min (s.vitals sig).max =
      gvRaw s sig g1 g2 := by
    apply clamp_eq_self
    · rw [hraw]; nlinarith
    · rw [hraw]; nlinarith
  have hgv : gvValue s sig g1 g2 =
      ((j + (46 * (n - j) + 25) / 50 : ℤ) : ℝ) / 10 := by
    rw [gvValue_eq, hclamp, hraw, hv, hb, zero_var_step_floor]
  have habs : ∀ p q : ℤ, |((p : ℤ) : ℝ) / 10 - ((q : ℤ) : ℝ) / 10| =
      ((p - q).natAbs : ℝ) / 10 := by
    intro p q
    rw [div_sub_div_same, abs_div, abs_of_nonneg (by norm_num : (0 : ℝ) ≤ 10),
      ← Int.cast_sub, Int.cast_natAbs, Int.cast_abs]
  obtain ⟨hc1, hc2⟩ := reversion_grid_step (n - j)
  have hdist : |((generateVital s sig g1 g2 r idNow ts).vitals sig).value -
      (s.vitals sig).baseline| =
      (((j + (46 * (n - j) + 25) / 50) - j).natAbs : ℝ) / 10 := by
    rw [hval, hgv, hb, habs]
  have hdist0 : |(s.vitals sig).value - (s.vitals sig).baseline| =
      ((n - j).natAbs : ℝ) / 10 := by
    rw [hv, hb, habs]
  have hsimp : ((j + (46 * (n - j) + 25) / 50) - j) = (46 * (n - j) + 25) / 50 := by
    ring
  constructor
  · rw [hdist, hdist0, hsimp]
    have : (((46 * (n - j) + 25) / 50).natAbs : ℝ) ≤ ((n - j).natAbs : ℝ) := by
      exact_mod_cast hc1
    linarith
  · intro h7
    rw [hdist0] at h7
    have h7' : 7 ≤ (n - j).natAbs := by
      by_contra hcon
      push_neg at hcon
      have : ((n - j).natAbs : ℝ) ≤ 6 := by exact_mod_cast Nat.le_of_lt_succ hcon
      linarith
    have hle := hc2 h7'
    rw [hdist, hdist0, hsimp]
    have : (((46 * (n - j) + 25) / 50).natAbs : ℝ) ≤ ((n - j).natAbs : ℝ) - 1 := by
      have h1n : (1 : ℕ) ≤ (n - j).natAbs := by omega
      calc (((46 * (n - j) + 25) / 50).natAbs : ℝ) ≤ (((n - j).natAbs - 1 : ℕ) : ℝ) := by
            exact_mod_cast hle
        _ = ((n - j).natAbs : ℝ) - 1 := by
            push_cast [Nat.cast_sub h1n]
            ring
    linarith

/-- A zero-variance heart-rate signal displaced to 72.06 (off the tenths
grid): the next stored value is 72.1, moving away from the baseline 72. -/
def sC2 : SimState :=
  let hrA : Vital := { state0.vitals Sig.hr with value := 72.06, variance := 0 }
  { state0 with vitals := Function.update state0.vitals Sig.hr hrA }

/-- A zero-variance heart-rate signal at 72.1: a fixed point of the step,
0.1 away from the baseline 72. -/
def sC2b : SimState :=
  let hrB : Vital := { state0.vitals Sig.hr with value := 72.1, variance := 0 }
  { state0 with vitals := Function.update state0.vitals Sig.hr hrB }

lemma sC2_vitals_hr : sC2.vitals Sig.hr =
    { state0.vitals Sig.hr with value := 72.06, variance := 0 } := by
  show Function.update state0.vitals Sig.hr
    ({ state0.vitals Sig.hr with value := 72.06, variance := 0 }) Sig.hr = _
  rw [Function.update_same]

lemma sC2b_vitals_hr : sC2b.vitals Sig.hr =
    { state0.vitals Sig.hr with value := 72.1, variance := 0 } := by
  show Function.update state0.vitals Sig.hr
    ({ state0.vitals Sig.hr with value := 72.1, variance := 0 }) Sig.hr = _
  rw [Function.update_same]

lemma sC2_step_value :
    ((generateVital sC2 Sig.hr 0 0 0 0 ("")).vitals Sig.hr).value = 72.1 := by
  have hval : ((generateVital sC2 Sig.hr 0 0 0 0 ("")).vitals Sig.hr).value =
      gvValue sC2 Sig.hr 0 0 := by
    rw [generateVital_vitals, if_pos rfl]
  have hraw : gvRaw sC2 Sig.hr 0 0 = 72.0552 := by
    rw [gvRaw_zero_var sC2 Sig.hr 0 0 rfl (by rw [sC2_vitals_hr]),
      sC2_vitals_hr]
    norm_num [state0]
  have hclamp : clamp (gvRaw sC2 Sig.hr 0 0) (sC2.vitals Sig.hr).min
      (sC2.vitals Sig.hr).max = 72.0552 := by
    rw [hraw, sC2_vitals_hr]
    show clamp 72.0552 (state0.vitals Sig.hr).min (state0.vitals Sig.hr).max = _
    rw [clamp_eq_self] <;> norm_num [state0]
  rw [hval, gvValue_eq, hclamp, jsRound]
  norm_num

lemma sC2b_step_value :
    ((generateVital sC2b Sig.hr 0 0 0 0 ("")).vitals Sig.hr).value = 72.1 := by
  have hval : ((generateVital sC2b Sig.hr 0 0 0 0 ("")).vitals Sig.hr).value =
      gvValue sC2b Sig.hr 0 0 := by
    rw [generateVital_vitals, if_pos rfl]
  have hraw : gvRaw sC2b Sig.hr 0 0 = 72.092 := by
    rw [gvRaw_zero_var sC2b Sig.hr 0 0 rfl (by rw [sC2b_vitals_hr]),
      sC2b_vitals_hr]
    norm_num [state0]
  have hclamp : clamp (gvRaw sC2b Sig.hr 0 0) (sC2b.vitals Sig.hr).min
      (sC2b.vitals Sig.hr).max = 72.092 := by
    rw [hraw, sC2b_vitals_hr]
    show clamp 72.092 (state0.vitals Sig.hr).min (state0.vitals Sig.hr).max = _
    rw [clamp_eq_self] <;> norm_num [state0]
  rw [hval, gvValue_eq, hclamp, jsRound]
  norm_num

/-- Counterexample for C2 as stated: with zero variance and anomaly off,
from 72.06 (baseline 72) the distance to baseline grows from 0.06 to 0.1
in one tick (monotone non-increase fails off the tenths grid), and 72.1 is
a fixed point of the step at distance 0.1 (the distance does not tend to
0). -/
theorem zero_variance_not_monotone :
    (((generateVital sC2 Sig.hr 0 0 0 0 ("")).vitals Sig.hr).value = 72.1 ∧
      (sC2.vitals Sig.hr).value = 72.06 ∧
      (sC2.vitals Sig.hr).baseline = 72 ∧
      (sC2.vitals Sig.hr).variance = 0 ∧
      sC2.anomalyMode = false ∧
      ¬(|(72.1 : ℝ) - 72| ≤ |(72.06 : ℝ) - 72|)) ∧
    (((generateVital sC2b Sig.hr 0 0 0 0 ("")).vitals Sig.hr).value =
        (sC2b.vitals Sig.hr).value ∧
      (sC2b.vitals Sig.hr).value ≠ (sC2b.vitals Sig.hr).baseline) := by
  refine ⟨⟨sC2_step_value, ?_, ?_, ?_, rfl, by norm_num [abs_of_nonneg]⟩,
    ⟨?_, ?_⟩⟩
  · rw [sC2_vitals_hr]
  · rw [sC2_vitals_hr]
    norm_num [state0]
  · rw [sC2_vitals_hr]
  · rw [sC2b_step_value, sC2b_vitals_hr]
  · rw [sC2b_vitals_hr]
    norm_num [state0]

/-- Witness for the amended C2 at the concrete on-grid state `sC2b`
(value 72.1 = 721/10, baseline 72 = 720/10, bounds 55 and 105). -/
theorem zero_variance_contraction_witness :
    (sC2b.anomalyMode = false ∧ (sC2b.vitals Sig.hr).variance = 0 ∧
      (sC2b.vitals Sig.hr).value = ((721 : ℤ) : ℝ) / 10 ∧
      (sC2b.vitals Sig.hr).baseline = ((720 : ℤ) : ℝ) / 10) ∧
    |((generateVital sC2b Sig.hr 0 0 0 0 ("")).vitals Sig.hr).value -
        (sC2b.vitals Sig.hr).baseline| ≤
      |(sC2b.vitals Sig.hr).value - (sC2b.vitals Sig.hr).baseline| := by
  have e1 : sC2b.anomalyMode = false := rfl
  have e2 : (sC2b.vitals Sig.hr).variance = 0 := by rw [sC2b_vitals_hr]
  have e3 : (sC2b.vitals Sig.hr).value = ((721 : ℤ) : ℝ) / 10 := by
    rw [sC2b_vitals_hr]; norm_num
  have e4 : (sC2b.vitals Sig.hr).baseline = ((720 : ℤ) : ℝ) / 10 := by
    rw [sC2b_vitals_hr]; norm_num [state0]
  have e5 : (sC2b.vitals Sig.hr).min = ((550 : ℤ) : ℝ) / 10 := by
    rw [sC2b_vitals_hr]; norm_num [state0]
  have e6 : (sC2b.vitals Sig.hr).max = ((1050 : ℤ) : ℝ) / 10 := by
    rw [sC2b_vitals_hr]; norm_num [state0]
  refine ⟨⟨e1, e2, e3, e4⟩, ?_⟩
  exact (zero_variance_contraction sC2b Sig.hr 0 0 0 0 ("") 721 720
    e1 e2 e3 e4
    (by rw [e5, e3]; norm_num) (by rw [e3, e6]; norm_num)
    (by rw [e5, e4]; norm_num) (by rw [e4, e6]; norm_num)).1

/-! ### The anomaly state machine (C4, C5) -/

lemma init_tick (hd td : Sig → ℕ → ℝ) (idNow : ℤ) (ts : String) :
    (init hd td idNow ts).tick = 0 := rfl

lemma init_anomalyMode (hd td : Sig → ℕ → ℝ) (idNow : ℤ) (ts : String) :
    (init hd td idNow ts).anomalyMode = false := rfl

lemma init_nextAnomalyTick (hd td : Sig → ℕ → ℝ) (idNow : ℤ) (ts : String) :
    (init hd td idNow ts).nextAnomalyTick = 30 := rfl

lemma init_anomalies_length (hd td : Sig → ℕ → ℝ) (idNow : ℤ) (ts : String) :
    (init hd td idNow ts).anomalies.length = 1 := rfl

/-- A single tick that fires the Idle-to-Active transition: the mode turns
on, the episode start is recorded as the (new) current tick, and exactly
one `active`/`medium` event is pushed to the front of the log. -/
lemma trigger_step (s : SimState) (o : TickOracle)
    (hm : s.anomalyMode = false) (hnext : s.nextAnomalyTick ≤ s.tick + 1)
    (hlen : s.anomalies.length ≤ 15) :
    (updateAllVitals s o).anomalyMode = true ∧
    (updateAllVitals s o).anomalyModeStart = s.tick + 1 ∧
    (updateAllVitals s o).tick = s.tick + 1 ∧
    (updateAllVitals s o).nextAnomalyTick = s.nextAnomalyTick ∧
    (updateAllVitals s o).anomalies =
      ({ id := o.idNow, time := o.timeStr,
         title := "Multi-Signal Correlation Divergence Detected",
         description := "HR-SpO2 inverse correlation strengthening while HRV is declining. This pattern may indicate early-stage autonomic stress response. Monitoring closely.",
         tags := ["HR↔SpO2", "HRV Decline", "Correlation Shift"],
         severity := "medium", status := "active" : Anomaly } ::
        s.anomalies).take 15 := by
  obtain ⟨u1, u2, u3, u4, u5, u6⟩ := updateAllVitals_anomaly s o
  have hts := tickStart_of_trigger s o hm hnext
  have h1 : (tickStart s o).anomalyMode = true := by
    rw [hts, addAnomaly_anomalyMode]
  have h2 : (tickStart s o).anomalyModeStart = s.tick + 1 := by
    rw [hts, addAnomaly_anomalyModeStart]
  have h3 : (tickStart s o).tick = s.tick + 1 := by
    rw [hts, addAnomaly_tick]
  have h4 : (tickStart s o).nextAnomalyTick = s.nextAnomalyTick := by
    rw [hts, addAnomaly_nextAnomalyTick]
  have h5 : (tickStart s o).anomalies =
      ({ id := o.idNow, time := o.timeStr,
         title := "Multi-Signal Correlation Divergence Detected",
         description := "HR-SpO2 inverse correlation strengthening while HRV is declining. This pattern may indicate early-stage autonomic stress response. Monitoring closely.",
         tags := ["HR↔SpO2", "HRV Decline", "Correlation Shift"],
         severity := "medium", status := "active" : Anomaly } ::
        s.anomalies).take 15 := by
    rw [hts]
    exact addAnomaly_anomalies _ _ _ _ _ _ _ _ hlen
  obtain ⟨f1, f2, f3, f4, f5, f6⟩ :=
    foldl_genStep_active o CONFIG.signals (tickStart s o) h1
      (by rw [h3, h2]; omega)
  exact ⟨by rw [u1, f1], by rw [u5, f5, h2], by rw [u6, f6, h3],
    by rw [u4, f4, h4], by rw [u2, f2, h5]⟩

/-- While the mode is off and the next trigger is still in the future, a
run of ticks only advances the tick counter. -/
lemma run_quiet (os : List TickOracle) (s : SimState)
    (hm : s.anomalyMode = false)
    (hlt : s.tick + (os.length : ℤ) < s.nextAnomalyTick) :
    (run s os).anomalyMode = false ∧
    (run s os).anomalies = s.anomalies ∧
    (run s os).tick = s.tick + os.length ∧
    (run s os).nextAnomalyTick = s.nextAnomalyTick := by
  induction os generalizing s with
  | nil => exact ⟨hm, rfl, by simp [run], rfl⟩
  | cons o os ih =>
    have hlen1 : (List.length (o :: os) : ℤ) = os.length + 1 := by
      simp
    have hnotrig : ¬(s.anomalyMode = false ∧ s.nextAnomalyTick ≤ s.tick + 1) := by
      rintro ⟨-, hc⟩
      rw [hlen1] at hlt
      omega
    obtain ⟨u1, u2, u3, u4, u5, u6⟩ := updateAllVitals_anomaly s o
    have hts := tickStart_of_skip s o hnotrig
    have h1 : (tickStart s o).anomalyMode = false := by rw [hts]; exact hm
    obtain ⟨f1, f2, f3, f4, f5, f6⟩ :=
      foldl_genStep_inactive o CONFIG.signals (tickStart s o) h1
    have s1m : (updateAllVitals s o).anomalyMode = false := by rw [u1, f1]
    have s1a : (updateAllVitals s o).anomalies = s.anomalies := by
      rw [u2, f2, hts]
    have s1t : (updateAllVitals s o).tick = s.tick + 1 := by
      rw [u6, f6, hts]
    have s1n : (updateAllVitals s o).nextAnomalyTick = s.nextAnomalyTick := by
      rw [u4, f4, hts]
    have hstep : run s (o :: os) = run (updateAllVitals s o) os := rfl
    obtain ⟨i1, i2, i3, i4⟩ := ih (updateAllVitals s o) s1m
      (by rw [s1t, s1n]; rw [hlen1] at hlt; omega)
    refine ⟨i1, by rw [hstep] at *; rw [i2, s1a], ?_, by rw [hstep] at *; rw [i4, s1n]⟩
    rw [hstep] at *
    rw [i3, s1t, hlen1]
    ring

/-- C5: while Idle, a tick whose (incremented) counter has reached
`nextAnomalyTick` turns the state machine Active, records
`startTick = currentTick` and appends exactly one `active`/`medium` event;
from the default initial state (Idle, `nextAnomalyTick = 30`), the first 29
ticks change nothing in the anomaly bookkeeping and the 30th tick fires the
first activation exactly at tick 30. -/
theorem anomaly_trigger_at_30 (s : SimState) (o : TickOracle)
    (hm : s.anomalyMode = false) (hnext : s.nextAnomalyTick ≤ s.tick + 1)
    (hlen : s.anomalies.length ≤ 15) :
    ((updateAllVitals s o).anomalyMode = true ∧
     (updateAllVitals s o).anomalyModeStart = s.tick + 1 ∧
     (∃ ev : Anomaly, ev.status = "active" ∧ ev.severity = "medium" ∧
       (updateAllVitals s o).anomalies = (ev :: s.anomalies).take 15)) ∧
    (∀ (hd td : Sig → ℕ → ℝ) (idNow : ℤ) (ts : String) (os : List TickOracle),
      ((os.length : ℤ) ≤ 29 →
        (run (init hd td idNow ts) os).anomalyMode = false ∧
        (run (init hd td idNow ts) os).anomalies =
          (init hd td idNow ts).anomalies ∧
        (run (init hd td idNow ts) os).tick = os.length) ∧
      (os.length = 30 →
        (run (init hd td idNow ts) os).anomalyMode = true ∧
        (run (init hd td idNow ts) os).anomalyModeStart = 30 ∧
        (run (init hd td idNow ts) os).tick = 30 ∧
        ∃ ev : Anomaly, ev.status = "active" ∧ ev.severity = "medium" ∧
          (run (init hd td idNow ts) os).anomalies =
            ev :: (init hd td idNow ts).anomalies)) := by
  obtain ⟨t1, t2, t3, t4, t5⟩ := trigger_step s o hm hnext hlen
  have hev1 : ∃ ev : Anomaly, ev.status = "active" ∧ ev.severity = "medium" ∧
      (updateAllVitals s o).anomalies = (ev :: s.anomalies).take 15 :=
    ⟨⟨o.idNow, o.timeStr, "Multi-Signal Correlation Divergence Detected", "HR-SpO2 inverse correlation strengthening while HRV is declining. This pattern may indicate early-stage autonomic stress response. Monitoring closely.", ["HR↔SpO2", "HRV Decline", "Correlation Shift"], "medium", "active"⟩, rfl, rfl, t5⟩
  refine ⟨⟨t1, t2, hev1⟩, ?_⟩
  intro hd td idNow ts os
  constructor
  · intro h29
    obtain ⟨q1, q2, q3, q4⟩ := run_quiet os (init hd td idNow ts)
      (init_anomalyMode hd td idNow ts)
      (by rw [init_tick, init_nextAnomalyTick]; omega)
    exact ⟨q1, q2, by rw [q3, init_tick]; ring⟩
  · intro h30
    have hne : os ≠ [] := by
      intro hc
      rw [hc] at h30
      simp at h30
    obtain ⟨os', o', rfl⟩ : ∃ os' o', os = os' ++ [o'] := by
      refine ⟨os.dropLast, os.getLast hne, ?_⟩
      rw [List.dropLast_append_getLast hne]
    have h29 : os'.length = 29 := by
      rw [List.length_append, List.length_singleton] at h30
      omega
    have hsplit : run (init hd td idNow ts) (os' ++ [o']) =
        updateAllVitals (run (init hd td idNow ts) os') o' := by
      unfold run
      rw [List.foldl_append, List.foldl_cons, List.foldl_nil]
    obtain ⟨q1, q2, q3, q4⟩ := run_quiet os' (init hd td idNow ts)
      (init_anomalyMode hd td idNow ts)
      (by rw [init_tick, init_nextAnomalyTick, h29]; omega)
    have hq29 : (run (init hd td idNow ts) os').tick = 29 := by
      rw [q3, init_tick, h29]
      ring
    have hqlen : (run (init hd td idNow ts) os').anomalies.length ≤ 15 := by
      rw [q2, init_anomalies_length]
      omega
    obtain ⟨w1, w2, w3, w4, w5⟩ := trigger_step (run (init hd td idNow ts) os')
      o' q1 (by rw [q4, init_nextAnomalyTick, hq29]; omega) hqlen
    rw [hsplit]
    refine ⟨w1, by rw [w2, hq29]; ring, by rw [w3, hq29]; ring, ?_⟩
    have hlist : (updateAllVitals (run (init hd td idNow ts) os') o').anomalies =
        ⟨o'.idNow, o'.timeStr, "Multi-Signal Correlation Divergence Detected", "HR-SpO2 inverse correlation strengthening while HRV is declining. This pattern may indicate early-stage autonomic stress response. Monitoring closely.", ["HR↔SpO2", "HRV Decline", "Correlation Shift"], "medium", "active"⟩ :: (init hd td idNow ts).anomalies := by
      rw [w5, q2]
      apply List.take_of_length_le
      rw [List.length_cons, init_anomalies_length]
      omega
    exact ⟨⟨o'.idNow, o'.timeStr, "Multi-Signal Correlation Divergence Detected", "HR-SpO2 inverse correlation strengthening while HRV is declining. This pattern may indicate early-stage autonomic stress response. Monitoring closely.", ["HR↔SpO2", "HRV Decline", "Correlation Shift"], "medium", "active"⟩, rfl, rfl, hlist⟩

/-- C4: an episode active since tick T survives every tick with elapsed
time at most 20 unchanged, and the tick reaching T+21 clears the mode,
appends exactly one `auto-resolved`/`low` event at the front, and
reschedules `nextAnomalyTick` to a value in `[T+21+25, T+21+44]`. -/
theorem anomaly_auto_resolve (s : SimState) (o : TickOracle) (T : ℤ)
    (hm : s.anomalyMode = true) (hstart : s.anomalyModeStart = T) :
    (s.tick + 1 - T ≤ 20 →
      (updateAllVitals s o).anomalyMode = true ∧
      (updateAllVitals s o).anomalies = s.anomalies ∧
      (updateAllVitals s o).nextAnomalyTick = s.nextAnomalyTick) ∧
    (s.tick + 1 = T + 21 → s.anomalies.length ≤ 15 → 0 ≤ o.r → o.r < 1 →
      (updateAllVitals s o).anomalyMode = false ∧
      (∃ ev : Anomaly, ev.status = "auto-resolved" ∧ ev.severity = "low" ∧
        (updateAllVitals s o).anomalies = (ev :: s.anomalies).take 15) ∧
      T + 21 + 25 ≤ (updateAllVitals s o).nextAnomalyTick ∧
      (updateAllVitals s o).nextAnomalyTick ≤ T + 21 + 44 ∧
      (updateAllVitals s o).tick = T + 21) := by
  have hnotrig : ¬(s.anomalyMode = false ∧ s.nextAnomalyTick ≤ s.tick + 1) := by
    rintro ⟨hc, -⟩
    rw [hm] at hc
    exact absurd hc (by simp)
  have hts := tickStart_of_skip s o hnotrig
  obtain ⟨u1, u2, u3, u4, u5, u6⟩ := updateAllVitals_anomaly s o
  have hm' : (tickStart s o).anomalyMode = true := by rw [hts]; exact hm
  have hst' : (tickStart s o).anomalyModeStart = T := by rw [hts]; exact hstart
  have htk' : (tickStart s o).tick = s.tick + 1 := by rw [hts]
  constructor
  · intro h20
    obtain ⟨f1, f2, f3, f4, f5, f6⟩ :=
      foldl_genStep_active o CONFIG.signals (tickStart s o) hm'
        (by rw [htk', hst']; omega)
    refine ⟨by rw [u1, f1], by rw [u2, f2, hts], by rw [u4, f4, hts]⟩
  · intro h21 hlen hr0 hr1
    have hsig : CONFIG.signals = Sig.hr ::
        [Sig.spo2, Sig.bp_sys, Sig.bp_dia, Sig.temp, Sig.rr, Sig.hrv] := rfl
    have hres : (tickStart s o).anomalyMode = true ∧
        20 < (tickStart s o).tick - (tickStart s o).anomalyModeStart := by
      refine ⟨hm', ?_⟩
      rw [htk', hst']
      omega
    obtain ⟨r1, r2, r3⟩ := generateVital_anomaly_of_res (tickStart s o) Sig.hr
      (o.g1 Sig.hr) (o.g2 Sig.hr) o.r o.idNow o.timeStr hres
    have hst1m : (genStep o (tickStart s o) Sig.hr).anomalyMode = false := by
      rw [genStep_def]; exact r1
    obtain ⟨f1, f2, f3, f4, f5, f6⟩ := foldl_genStep_inactive o
      [Sig.spo2, Sig.bp_sys, Sig.bp_dia, Sig.temp, Sig.rr, Sig.hrv]
      (genStep o (tickStart s o) Sig.hr) hst1m
    have hfoldeq : CONFIG.signals.foldl (genStep o) (tickStart s o) =
        List.foldl (genStep o) (genStep o (tickStart s o) Sig.hr)
          [Sig.spo2, Sig.bp_sys, Sig.bp_dia, Sig.temp, Sig.rr, Sig.hrv] := by
      rw [hsig, List.foldl_cons]
    -- the appended event, via the take-15 normal form of addAnomaly
    have hanomalies : (genStep o (tickStart s o) Sig.hr).anomalies =
        (({ id := o.idNow, time := o.timeStr,
            title := "Multi-Signal Pattern Normalized",
            description := "Correlation patterns have returned to baseline. The transient divergence resolved without intervention.",
            tags := ["HR", "SpO2", "HRV"], severity := "low",
            status := "auto-resolved" : Anomaly }) :: s.anomalies).take 15 := by
      rw [genStep_def, r2]
      have hlen' : ({ tickStart s o with anomalyMode := false } :
          SimState).anomalies.length ≤ 15 := by
        show (tickStart s o).anomalies.length ≤ 15
        rw [hts]
        exact hlen
      have := addAnomaly_anomalies ({ tickStart s o with anomalyMode := false })
        o.idNow o.timeStr ("auto-resolved") ("Multi-Signal Pattern Normalized")
        ("Correlation patterns have returned to baseline. The transient divergence resolved without intervention.")
        ["HR", "SpO2", "HRV"] ("low") hlen'
      rw [this]
      show List.take 15 (_ :: (tickStart s o).anomalies) = _
      rw [hts]
    have hnext1 : (genStep o (tickStart s o) Sig.hr).nextAnomalyTick =
        T + 21 + 25 + ⌊o.r * 20⌋ := by
      rw [genStep_def, r3, htk', h21]
    have hfloor0 : 0 ≤ ⌊o.r * 20⌋ := by
      apply Int.le_floor.mpr
      push_cast
      nlinarith
    have hfloor19 : ⌊o.r * 20⌋ ≤ 19 := by
      have : ⌊o.r * 20⌋ < 20 := by
        apply Int.floor_lt.mpr
        push_cast
        nlinarith
      omega
    refine ⟨by rw [u1, hfoldeq, f1], ?_, ?_, ?_, ?_⟩
    · refine ⟨⟨o.idNow, o.timeStr, "Multi-Signal Pattern Normalized", "Correlation patterns have returned to baseline. The transient divergence resolved without intervention.", ["HR", "SpO2", "HRV"], "low", "auto-resolved"⟩, rfl, rfl, ?_⟩
      rw [u2, hfoldeq, f2, hanomalies]
    · rw [u4, hfoldeq, f4, hnext1]
      omega
    · rw [u4, hfoldeq, f4, hnext1]
      omega
    · rw [u6, hfoldeq, f6, genStep_def, generateVital_tick, htk', h21]

/-- Witness for C4: a state active since tick 0 observed at tick 20, so
the next tick is tick 21 and the episode auto-resolves. -/
theorem anomaly_auto_resolve_witness :
    (({ state0 with tick := 20, anomalyMode := true } : SimState).anomalyMode =
        true ∧
      ({ state0 with tick := 20, anomalyMode := true } : SimState).tick + 1 =
        (0 : ℤ) + 21) ∧
    (updateAllVitals { state0 with tick := 20, anomalyMode := true }
      { g1 := fun _ => 0, g2 := fun _ => 0, r := 0, idNow := 0,
        timeStr := "" }).anomalyMode = false := by
  have h := anomaly_auto_resolve
    { state0 with tick := 20, anomalyMode := true }
    { g1 := fun _ => 0, g2 := fun _ => 0, r := 0, idNow := 0, timeStr := "" }
    0 rfl rfl
  refine ⟨⟨rfl, by norm_num⟩, ?_⟩
  exact (h.2 (by norm_num) (by norm_num [state0]) le_rfl (by norm_num)).1

/-- Witness for C5: the trigger step applied at the concrete state
`state0` at tick 29 with `nextAnomalyTick = 30`, and the 30-tick run from
`init` with a constant oracle sequence. -/
theorem anomaly_trigger_at_30_witness :
    (({ state0 with tick := 29 } : SimState).anomalyMode = false ∧
      ({ state0 with tick := 29 } : SimState).nextAnomalyTick ≤ 29 + 1 ∧
      ({ state0 with tick := 29 } : SimState).anomalies.length ≤ 15) ∧
    (updateAllVitals { state0 with tick := 29 }
        { g1 := fun _ => 0, g2 := fun _ => 0, r := 0, idNow := 0,
          timeStr := "" }).anomalyMode = true := by
  have h := anomaly_trigger_at_30 { state0 with tick := 29 }
    { g1 := fun _ => 0, g2 := fun _ => 0, r := 0, idNow := 0, timeStr := "" }
    rfl (by norm_num [state0]) (by norm_num [state0])
  exact ⟨⟨rfl, by norm_num [state0], by norm_num [state0]⟩, h.1.1⟩

/-! ### Mid-tick anomaly clearing (C10) -/

lemma foldl_genStep_vitals_not_mem (o : TickOracle) (L : List Sig)
    (st : SimState) (t : Sig) (ht : t ∉ L) :
    (L.foldl (genStep o) st).vitals t = st.vitals t := by
  induction L generalizing st with
  | nil => rfl
  | cons a L ih =>
    rw [List.foldl_cons]
    have hta : t ≠ a := by
      intro hc
      exact ht (by rw [hc]; exact List.mem_cons_self a L)
    rw [ih _ (fun hc => ht (List.mem_cons_of_mem a hc)), genStep_def,
      generateVital_vitals, if_neg hta]

lemma gvRaw_inactive (st : SimState) (sig : Sig) (g1 g2 : ℝ)
    (hm : st.anomalyMode = false) :
    gvRaw st sig g1 g2 = (st.vitals sig).value +
      ((st.vitals sig).baseline - (st.vitals sig).value) * 0.08 +
      Real.sin ((st.tick : ℝ) * 0.02) * (st.vitals sig).variance * 0.5 * 0.1 +
      g1 * (st.vitals sig).variance := by
  simp [gvRaw, hm]

lemma gvRaw_resolving_hr (st : SimState) (g1 g2 : ℝ)
    (hm : st.anomalyMode = true) (he : 20 < st.tick - st.anomalyModeStart) :
    gvRaw st Sig.hr g1 g2 = (st.vitals Sig.hr).value +
      ((st.vitals Sig.hr).baseline - (st.vitals Sig.hr).value) * 0.08 +
      Real.sin ((st.tick : ℝ) * 0.02) *
        (st.vitals Sig.hr).variance * 0.5 * 0.1 +
      g1 * (st.vitals Sig.hr).variance + (1 * 8 + g2 * 2) := by
  have h21 : (15 : ℝ) ≤ (st.tick : ℝ) - (st.anomalyModeStart : ℝ) := by
    have h15 : (15 : ℤ) ≤ st.tick - st.anomalyModeStart := by omega
    exact_mod_cast h15
  have hsev : min (((st.tick : ℝ) - (st.anomalyModeStart : ℝ)) / 15) 1 = 1 := by
    apply min_eq_right
    linarith
  simp [gvRaw, hm, hsev, anomalyDrift]

/-- With anomaly mode off at the start of the signal loop, every processed
signal stores the plain (drift-free) value, computed from its own state at
loop entry. -/
lemma foldl_genStep_value_inactive (o : TickOracle) (L : List Sig)
    (st : SimState) (hm : st.anomalyMode = false) (hnd : L.Nodup) (t : Sig)
    (ht : t ∈ L) :
    ((L.foldl (genStep o) st).vitals t).value =
      jsRound (clamp ((st.vitals t).value +
        ((st.vitals t).baseline - (st.vitals t).value) * 0.08 +
        Real.sin ((st.tick : ℝ) * 0.02) * (st.vitals t).variance * 0.5 * 0.1 +
        o.g1 t * (st.vitals t).variance)
        (st.vitals t).min (st.vitals t).max * 10) / 10 := by
  induction L generalizing st with
  | nil => cases ht
  | cons a L ih =>
    rw [List.foldl_cons]
    rcases List.mem_cons.mp ht with rfl | htL
    · have htnL : t ∉ L := (List.nodup_cons.mp hnd).1
      rw [foldl_genStep_vitals_not_mem o L _ t htnL, genStep_def,
        generateVital_vitals, if_pos rfl]
      show gvValue st t (o.g1 t) (o.g2 t) = _
      rw [gvValue_eq, gvRaw_inactive st t _ _ hm]
    · have hna : ¬(st.anomalyMode = true ∧
          20 < st.tick - st.anomalyModeStart) := by
        simp [hm]
      have e := generateVital_anomaly_of_not st a (o.g1 a) (o.g2 a) o.r
        o.idNow o.timeStr hna
      have hm1 : (genStep o st a).anomalyMode = false := by
        rw [genStep_def, e.1, hm]
      have hta : t ≠ a := by
        rintro rfl
        exact (List.nodup_cons.mp hnd).1 htL
      have hvt : (genStep o st a).vitals t = st.vitals t := by
        rw [genStep_def, generateVital_vitals, if_neg hta]
      have htk : (genStep o st a).tick = st.tick := by
        rw [genStep_def, generateVital_tick]
      rw [ih (genStep o st a) hm1 (List.nodup_cons.mp hnd).2 htL, hvt, htk]

lemma updateAllVitals_vitals (s : SimState) (o : TickOracle) :
    (updateAllVitals s o).vitals =
      (CONFIG.signals.foldl (genStep o) (tickStart s o)).vitals := by
  rw [updateAllVitals_eq, (renderRisks_proj _).1, (updateRisks_proj _).1,
    (corrStage_proj _).1, foldl_trendStep_vitals]

/-- C10: on the tick at which an active episode resolves (elapsed > 20),
`hr` — processed first — still receives the full-severity anomaly drift
`1*8 + g2*2` before clearing the mode inside its own advance step, while
every signal processed after it gets the plain drift-free update, and the
tick ends with anomaly mode off. -/
theorem resolving_tick_drift_only_hr (s : SimState) (o : TickOracle)
    (hm : s.anomalyMode = true)
    (he : 20 < s.tick + 1 - s.anomalyModeStart) :
    ((updateAllVitals s o).vitals Sig.hr).value =
      jsRound (clamp ((s.vitals Sig.hr).value +
        ((s.vitals Sig.hr).baseline - (s.vitals Sig.hr).value) * 0.08 +
        Real.sin (((s.tick + 1 : ℤ) : ℝ) * 0.02) *
          (s.vitals Sig.hr).variance * 0.5 * 0.1 +
        o.g1 Sig.hr * (s.vitals Sig.hr).variance + (1 * 8 + o.g2 Sig.hr * 2))
        (s.vitals Sig.hr).min (s.vitals Sig.hr).max * 10) / 10 ∧
    (∀ t : Sig, t ≠ Sig.hr →
      ((updateAllVitals s o).vitals t).value =
        jsRound (clamp ((s.vitals t).value +
          ((s.vitals t).baseline - (s.vitals t).value) * 0.08 +
          Real.sin (((s.tick + 1 : ℤ) : ℝ) * 0.02) *
            (s.vitals t).variance * 0.5 * 0.1 +
          o.g1 t * (s.vitals t).variance)
          (s.vitals t).min (s.vitals t).max * 10) / 10) ∧
    (updateAllVitals s o).anomalyMode = false := by
  have hnotrig : ¬(s.anomalyMode = false ∧ s.nextAnomalyTick ≤ s.tick + 1) := by
    rintro ⟨hc, -⟩
    rw [hm] at hc
    exact absurd hc (by simp)
  have hts := tickStart_of_skip s o hnotrig
  have hm' : (tickStart s o).anomalyMode = true := by rw [hts]; exact hm
  have htk' : (tickStart s o).tick = s.tick + 1 := by rw [hts]
  have hst' : (tickStart s o).anomalyModeStart = s.anomalyModeStart := by
    rw [hts]
  have hv' : (tickStart s o).vitals = s.vitals := tickStart_vitals s o
  have hsig : CONFIG.signals = Sig.hr ::
      [Sig.spo2, Sig.bp_sys, Sig.bp_dia, Sig.temp, Sig.rr, Sig.hrv] := rfl
  have hres : (tickStart s o).anomalyMode = true ∧
      20 < (tickStart s o).tick - (tickStart s o).anomalyModeStart := by
    refine ⟨hm', ?_⟩
    rw [htk', hst']
    omega
  obtain ⟨r1, r2, r3⟩ := generateVital_anomaly_of_res (tickStart s o) Sig.hr
    (o.g1 Sig.hr) (o.g2 Sig.hr) o.r o.idNow o.timeStr hres
  have hst1m : (genStep o (tickStart s o) Sig.hr).anomalyMode = false := by
    rw [genStep_def]
    exact r1
  have hfoldeq : CONFIG.signals.foldl (genStep o) (tickStart s o) =
      List.foldl (genStep o) (genStep o (tickStart s o) Sig.hr)
        [Sig.spo2, Sig.bp_sys, Sig.bp_dia, Sig.temp, Sig.rr, Sig.hrv] := by
    rw [hsig, List.foldl_cons]
  refine ⟨?_, ?_, ?_⟩
  · rw [updateAllVitals_vitals, hfoldeq,
      foldl_genStep_vitals_not_mem o _ _ Sig.hr (by decide), genStep_def,
      generateVital_vitals, if_pos rfl]
    show gvValue (tickStart s o) Sig.hr (o.g1 Sig.hr) (o.g2 Sig.hr) = _
    rw [gvValue_eq, gvRaw_resolving_hr (tickStart s o) _ _ hm' hres.2, hv',
      htk']
  · intro t htne
    have htm : t ∈ ([Sig.spo2, Sig.bp_sys, Sig.bp_dia, Sig.temp, Sig.rr,
        Sig.hrv] : List Sig) := by
      cases t
      · exact absurd rfl htne
      all_goals decide
    have hvt : (genStep o (tickStart s o) Sig.hr).vitals t =
        s.vitals t := by
      rw [genStep_def, generateVital_vitals, if_neg htne, hv']
    have htkt : (genStep o (tickStart s o) Sig.hr).tick = s.tick + 1 := by
      rw [genStep_def, generateVital_tick, htk']
    rw [updateAllVitals_vitals, hfoldeq,
      foldl_genStep_value_inactive o _ _ hst1m (by decide) t htm, hvt, htkt]
  · obtain ⟨f1, f2, f3, f4, f5, f6⟩ := foldl_genStep_inactive o
      [Sig.spo2, Sig.bp_sys, Sig.bp_dia, Sig.temp, Sig.rr, Sig.hrv]
      (genStep o (tickStart s o) Sig.hr) hst1m
    rw [(updateAllVitals_anomaly s o).1, hfoldeq, f1]

/-- Witness for C10: the resolving tick taken from a concrete active state
(start 0, observed at tick 20). -/
theorem resolving_tick_drift_only_hr_witness :
    (({ state0 with tick := 20, anomalyMode := true } : SimState).anomalyMode =
        true ∧
      (20 : ℤ) <
        ({ state0 with tick := 20, anomalyMode := true } : SimState).tick + 1 -
          ({ state0 with tick := 20, anomalyMode := true } :
            SimState).anomalyModeStart) ∧
    (updateAllVitals { state0 with tick := 20, anomalyMode := true }
      { g1 := fun _ => 0, g2 := fun _ => 0, r := 0, idNow := 0,
        timeStr := "" }).anomalyMode = false := by
  have h := resolving_tick_drift_only_hr
    { state0 with tick := 20, anomalyMode := true }
    { g1 := fun _ => 0, g2 := fun _ => 0, r := 0, idNow := 0, timeStr := "" }
    rfl (by norm_num [state0])
  exact ⟨⟨rfl, by norm_num [state0]⟩, h.2.2⟩

end VitalSync
